import Mathlib

/-
Verification of the error-normalization and pattern-matching engine of the
web3-error-humanizer library, together with its resolution facade.

The development shallowly embeds the TypeScript source:
  * `src/utils/normalization.ts` (the normalizer),
  * `src/data/error-map.ts`      (the static dictionary),
  * `src/utils/matching.ts`      (the pattern index and matcher),
  * `src/utils/extraction.ts`    (the raw-message extractor),
  * `src/index.ts`               (the public functions and the
    `Web3ErrorHumanizer` class with its AI retry loop).

Modelling conventions.  JavaScript strings are modelled as Lean `String`
(lists of characters); regex character classes are translated into explicit
character predicates.  `String.prototype.toLowerCase` and Unicode NFD
decomposition are modelled exactly on the ASCII range (where `toLowerCase`
maps `A`–`Z` to `a`–`z` and NFD is the identity) and as the identity
elsewhere; every dictionary key and every concrete input appearing below is
ASCII, where the model agrees with JavaScript exactly.  JavaScript runtime
values are modelled by the inductive type `JsValue`, covering the data
shapes the extractor inspects (primitives, BigInt, plain objects, `Error`
instances, and viem `BaseError` instances with their precomputed
revert-walk result); property getters, proxies, functions and symbols are
outside the model.  Cyclic object graphs cannot be represented in an
inductive type, so `JSON.stringify` failure (which JavaScript raises for
cycles and for BigInt) is represented by its BigInt case.  The external
OpenAI client is modelled as a `Backend` function from the attempt index to
that invocation's outcome, and the `await`ed delays are recorded in the
returned trace rather than actually waited.  The source's `try`/`catch`
blocks around extraction and matching guard against exceptions that cannot
occur for the data shapes in the model (property access on modelled values
never throws), so the corresponding catch branches are dead here; the only
modelled exception source is `JSON.stringify`, whose `try`/`catch` is
translated into the `Except` result of `jsonStringify`.
-/

set_option maxRecDepth 1000000
set_option maxHeartbeats 8000000

namespace Web3

/-! ## Normalizer (`src/utils/normalization.ts`) -/

/-- Whitespace as JavaScript's regex class `\s` and `String.prototype.trim`
classify it (ECMA-262 WhiteSpace and LineTerminator code points). -/
def jsWhitespace (c : Char) : Bool :=
  c.toNat == 0x20 || c.toNat == 0x09 || c.toNat == 0x0A || c.toNat == 0x0B ||
  c.toNat == 0x0C || c.toNat == 0x0D || c.toNat == 0xA0 || c.toNat == 0x1680 ||
  (0x2000 ≤ c.toNat && c.toNat ≤ 0x200A) || c.toNat == 0x2028 || c.toNat == 0x2029 ||
  c.toNat == 0x202F || c.toNat == 0x205F || c.toNat == 0x3000 || c.toNat == 0xFEFF

/-- Word characters as JavaScript's regex class `\w`: ASCII letters, digits
and the underscore. -/
def jsWordChar (c : Char) : Bool :=
  ('a' ≤ c && c ≤ 'z') || ('A' ≤ c && c ≤ 'Z') || ('0' ≤ c && c ≤ '9') || c == '_'

/-- Combining diacritical marks, the code-point range 0x300 to 0x36F
stripped by `normalize` after NFD decomposition. -/
def combiningMark (c : Char) : Bool :=
  0x0300 ≤ c.toNat && c.toNat ≤ 0x036F

/-- Separator characters kept by the final character filter of `normalize`
besides word characters and whitespace: `: . _ -`. -/
def keptSeparator (c : Char) : Bool :=
  c == ':' || c == '.' || c == '_' || c == '-'

/-- Characters kept by `replace(/[^\w\s:._-]/g, "")`. -/
def keptChar (c : Char) : Bool :=
  jsWordChar c || jsWhitespace c || keptSeparator c

/-- `String.prototype.toLowerCase`, modelled exactly on the ASCII range and
as the identity elsewhere (see the header comment). -/
def jsToLower (c : Char) : Char :=
  if 'A' ≤ c && c ≤ 'Z' then Char.ofNat (c.toNat + 32) else c

/-- Unicode canonical decomposition (NFD) of a single character, modelled
exactly on the ASCII range (where it is the identity) and as the identity
elsewhere (see the header comment). -/
def nfdChar (c : Char) : List Char := [c]

/-- `String.prototype.trim` on character lists: drop JavaScript whitespace
from both ends. -/
def jsTrim (l : List Char) : List Char :=
  ((l.dropWhile jsWhitespace).reverse.dropWhile jsWhitespace).reverse

/-- `replace(/\s+/g, " ")`: collapse each maximal whitespace run to a single
space. -/
def collapseWs : List Char → List Char
  | [] => []
  | [c] => if jsWhitespace c then [' '] else [c]
  | a :: b :: rest =>
    if jsWhitespace a && jsWhitespace b then collapseWs (b :: rest)
    else (if jsWhitespace a then ' ' else a) :: collapseWs (b :: rest)

/-- `normalize` from `src/utils/normalization.ts`: guard against empty
input, trim, lower-case, NFD-decompose, strip combining marks, collapse
whitespace, and remove everything except word characters, whitespace and
the separators `: . _ -`. -/
def normalize (value : String) : String :=
  if value = "" then ""
  else
    String.mk
      ((collapseWs ((((jsTrim value.toList).map jsToLower).flatMap nfdChar).filter
          (fun c => !combiningMark c))).filter keptChar)

/-- `String.prototype.trim` on strings (used for the AI response text). -/
def trimString (s : String) : String :=
  String.mk (jsTrim s.toList)

/-! ## Static dictionary (`src/data/error-map.ts`) -/

/-- `DEFAULT_FALLBACK_MESSAGE` from `src/data/error-map.ts`. -/
def DEFAULT_FALLBACK_MESSAGE : String := "Transaction failed. Please try again."

/-- The static error dictionary `LOCAL_ERROR_MAP` from `src/data/error-map.ts`:
the object literal's key/value pairs in declaration order. -/
def LOCAL_ERROR_MAP : List (String × String) := [
  ("ACTION_REJECTED", "The transaction was cancelled in your wallet."),
  ("USER_REJECTED", "You declined the request in your wallet."),
  ("User rejected", "You declined the request in your wallet."),
  ("User denied", "You declined the request in your wallet."),
  ("user rejected transaction", "You cancelled the transaction in your wallet."),
  ("user rejected signing", "You cancelled the signing request."),
  ("Request rejected", "You declined the request in your wallet."),
  ("User cancelled", "You cancelled the transaction."),
  ("User closed", "You closed the wallet popup without completing the action."),
  ("Rejected by user", "You declined the request."),
  ("User disapproved", "You declined the request."),
  ("INSUFFICIENT_FUNDS", "You don\x27t have enough gas (ETH/native token) to pay for this transaction."),
  ("insufficient funds", "You don\x27t have enough balance for this transaction."),
  ("insufficient balance", "Your token balance is too low for this swap."),
  ("exceeds balance", "The amount exceeds your available balance."),
  ("transfer amount exceeds balance", "You\x27re trying to send more tokens than you have."),
  ("burn amount exceeds balance", "You\x27re trying to burn more tokens than you have."),
  ("InsufficientBalance", "Your balance is too low for this transaction."),
  ("VL_BORROWING_NOT_ENABLED", "Borrowing is disabled for this asset right now."),
  ("VL_SUPPLY_CAP_EXCEEDED", "Supply cap reached for this asset. Try a smaller deposit or wait."),
  ("VL_BORROW_CAP_EXCEEDED", "Borrow cap reached for this asset. Try a smaller amount or another asset."),
  ("VL_COLLATERAL_CANNOT_COVER_NEW_BORROW", "Not enough collateral for this borrow. Add more collateral or reduce amount."),
  ("VL_HEALTH_FACTOR_LOWER_THAN_LIQUIDATION_THRESHOLD", "Position is too risky. Add collateral or reduce your borrow."),
  ("VL_COLLATERAL_BALANCE_IS_ZERO", "You have no collateral for this position. Supply collateral first."),
  ("VL_TRANSFER_NOT_ALLOWED", "Transfer blocked because the asset is used as collateral or frozen."),
  ("VL_INVALID_HEALTH_FACTOR", "Health factor is invalid. Refresh your position and try again."),
  ("VL_LIQUIDATION_CALL_FAILED", "Liquidation could not be executed. Check position or try again later."),
  ("SAFECAST_OVERFLOW", "Internal math overflow. Try again with updated parameters or smaller size."),
  ("ERC20InsufficientBalance", "Your token balance is too low for this transaction."),
  ("ERC20InvalidSender", "Invalid sender address for this token transaction."),
  ("ERC20InvalidReceiver", "Invalid recipient address for this token transaction."),
  ("ERC20InsufficientAllowance", "You need to approve more tokens before this transaction."),
  ("ERC20InvalidApprover", "Invalid address used for token approval."),
  ("ERC20InvalidSpender", "Invalid spender address for token approval."),
  ("ERC721InvalidOwner", "You do not own this NFT."),
  ("ERC721InvalidSender", "You are not authorized to send this NFT."),
  ("ERC721InvalidReceiver", "Invalid recipient address for this NFT."),
  ("ERC721InsufficientApproval", "You need to approve this NFT transfer first."),
  ("ERC721IncorrectOwner", "The NFT is not owned by the expected address."),
  ("ERC1155InsufficientBalance", "You do not have enough of these tokens/NFTs."),
  ("ERC1155InvalidSender", "You are not authorized to send these tokens."),
  ("ERC1155InvalidReceiver", "Invalid recipient address for these tokens."),
  ("ERC1155InsufficientApproval", "You need to approve this transfer first."),
  ("AA10", "Account already exists. You cannot initialize it again."),
  ("AA13", "Wallet creation failed. Check if your factory has enough gas."),
  ("AA20", "Smart account not deployed yet. Please ensure the first transaction includes initCode."),
  ("AA21", "You don\x27t have enough native tokens to pay for this transaction\x27s gas."),
  ("AA23", "Transaction validation failed. This usually means the signature is wrong or gas is too low."),
  ("AA24", "Signature error. Your wallet couldn\x27t verify the transaction author."),
  ("AA25", "Transaction sequence error. Another transaction from this account might be pending."),
  ("AA31", "The gas sponsor (Paymaster) has run out of funds. Try again later."),
  ("AA33", "Gas sponsorship was rejected. You might not meet the sponsor\x27s criteria."),
  ("AA40", "Transaction verification took too much gas. Try increasing the gas limit."),
  ("AA51", "Execution failed after validation. The smart contract logic reverted."),
  ("insufficient allowance", "You need to approve the token first before swapping."),
  ("allowance exceeded", "Token approval needed. Please approve the token first."),
  ("ERC20: insufficient allowance", "Please approve the token before swapping."),
  ("SafeERC20: low-level call failed", "Token transfer failed. The token may require approval or has transfer restrictions."),
  ("TRANSFER_FROM_FAILED", "Token approval failed or you have insufficient balance of the token you are selling."),
  ("STF", "Token transfer failed. Make sure you have approved the token."),
  ("TransferHelper: TRANSFER_FROM_FAILED", "Token transfer failed. Please approve the token or check your balance."),
  ("TransferHelper::transferFrom: transferFrom failed", "Token transfer failed. Please approve or check balance."),
  ("INSUFFICIENT_OUTPUT_AMOUNT", "Price moved too much. Try increasing your slippage tolerance."),
  ("INSUFFICIENT_INPUT_AMOUNT", "Input amount too small for this swap. Try a larger amount."),
  ("EXCESSIVE_INPUT_AMOUNT", "Price moved unfavorably. Try increasing your slippage tolerance."),
  ("Too little received", "Price changed too much. Increase your slippage tolerance."),
  ("Too much requested", "Price changed unfavorably. Try increasing slippage."),
  ("Price slippage check", "Price moved beyond your slippage tolerance. Try increasing it."),
  ("SlippageToleranceExceeded", "Price moved too much. Increase your slippage tolerance."),
  ("INSUFFICIENT_LIQUIDITY", "Not enough liquidity for this trade. Try a smaller amount."),
  ("InsufficientLiquidity", "Not enough liquidity. Try a smaller amount or different pair."),
  ("UniswapV2: K", "Low liquidity for this pair. Try a smaller swap amount."),
  ("UniswapV2: INSUFFICIENT_OUTPUT_AMOUNT", "Price moved too much. Increase your slippage tolerance."),
  ("UniswapV2: INSUFFICIENT_INPUT_AMOUNT", "Input amount is too small. Try a larger amount."),
  ("UniswapV2: INSUFFICIENT_LIQUIDITY", "Not enough liquidity for this swap. Try a smaller amount."),
  ("UniswapV2: INSUFFICIENT_LIQUIDITY_BURNED", "Not enough liquidity to remove. Try a smaller amount."),
  ("UniswapV2: INSUFFICIENT_LIQUIDITY_MINTED", "Insufficient liquidity to add. Try different amounts."),
  ("UniswapV2: EXPIRED", "Quote expired. Please try the swap again."),
  ("UniswapV2: INVALID_TO", "Invalid recipient address for this swap."),
  ("UniswapV2: OVERFLOW", "Amount too large. Try a smaller swap."),
  ("UniswapV2: LOCKED", "This pair is currently locked. Try again shortly."),
  ("UniswapV2Router: INSUFFICIENT_OUTPUT_AMOUNT", "Price moved too much. Increase slippage tolerance."),
  ("UniswapV2Router: EXCESSIVE_INPUT_AMOUNT", "Price moved unfavorably. Increase slippage tolerance."),
  ("UniswapV2Router: EXPIRED", "Transaction expired. Please try again."),
  ("UniswapV2Library: INSUFFICIENT_AMOUNT", "Amount too small for this operation."),
  ("UniswapV2Library: INSUFFICIENT_LIQUIDITY", "Not enough liquidity for this trade."),
  ("UniswapV2Library: INSUFFICIENT_INPUT_AMOUNT", "Input amount too small. Try a larger amount."),
  ("UniswapV2Library: INSUFFICIENT_OUTPUT_AMOUNT", "Price moved too much. Increase slippage."),
  ("UniswapV3: SPL", "Price limit reached. Try a different price range."),
  ("UniswapV3: LOK", "Pool is locked. Try again in a moment."),
  ("UniswapV3: TLU", "Tick spacing error. Try a different price range."),
  ("UniswapV3: TLM", "Tick limit reached. Adjust your price range."),
  ("UniswapV3: TUM", "Tick upper limit reached."),
  ("UniswapV3: AI", "Amount insufficient. Try a larger amount."),
  ("UniswapV3: M0", "Not enough token0 liquidity."),
  ("UniswapV3: M1", "Not enough token1 liquidity."),
  ("UniswapV3: AS", "Amount specified is zero."),
  ("UniswapV3: IIA", "Invalid amount specified."),
  ("UniswapV3: L", "Liquidity error. Try different parameters."),
  ("UniswapV3: F0", "Flash loan callback failed for token0."),
  ("UniswapV3: F1", "Flash loan callback failed for token1."),
  ("Old", "Quote expired. Please refresh and try again."),
  ("UniswapV4: LOK", "The pool is locked. A hook might be preventing re-entry."),
  ("UniswapV4: TLU", "Price range error. The lower limit is higher than the upper limit."),
  ("UniswapV4: SPL", "Price limit reached. The trade would move the price too far."),
  ("UniswapV4: IIA", "Insufficient input amount. The swap didn\x27t send enough tokens to the pool."),
  ("UniswapV4: AS", "The trade amount cannot be zero."),
  ("UniswapV4: M0", "The pool doesn\x27t have enough of the first token (Token0)."),
  ("UniswapV4: M1", "The pool doesn\x27t have enough of the second token (Token1)."),
  ("HookReverted", "A custom logic \x27hook\x27 attached to this pool failed. Try a different route."),
  ("FeeTooHigh", "The dynamic fee set by the pool\x27s hook is too high for this trade."),
  ("Pancake: K", "Low liquidity for this pair. Try a smaller swap amount."),
  ("Pancake: INSUFFICIENT_OUTPUT_AMOUNT", "Price moved too much. Increase slippage tolerance."),
  ("Pancake: INSUFFICIENT_INPUT_AMOUNT", "Input amount too small. Try a larger amount."),
  ("Pancake: INSUFFICIENT_LIQUIDITY", "Not enough liquidity. Try a smaller amount."),
  ("Pancake: EXPIRED", "Quote expired. Please try the swap again."),
  ("Pancake: TRANSFER_FAILED", "Token transfer failed. Check your approval."),
  ("Pancake: LOCKED", "Pool is currently locked. Try again shortly."),
  ("PancakeRouter: INSUFFICIENT_OUTPUT_AMOUNT", "Price moved too much. Increase slippage."),
  ("PancakeRouter: EXCESSIVE_INPUT_AMOUNT", "Price moved unfavorably. Increase slippage."),
  ("PancakeRouter: EXPIRED", "Transaction expired. Please try again."),
  ("PancakeLibrary: INSUFFICIENT_AMOUNT", "Amount too small for this operation."),
  ("PancakeLibrary: INSUFFICIENT_LIQUIDITY", "Not enough liquidity for this trade."),
  ("SushiSwap: K", "Low liquidity. Try a smaller swap amount."),
  ("SushiSwap: INSUFFICIENT_OUTPUT_AMOUNT", "Price moved too much. Increase slippage tolerance."),
  ("SushiSwap: INSUFFICIENT_LIQUIDITY", "Not enough liquidity for this swap."),
  ("SushiSwap: EXPIRED", "Quote expired. Please try again."),
  ("1inch: minReturn", "Price moved too much. Increase slippage tolerance."),
  ("ReturnAmountIsNotEnough", "Price moved too much. Increase slippage tolerance."),
  ("Min return not reached", "Minimum return not met. Increase your slippage tolerance."),
  ("1inch: insufficient output amount", "Price moved too much. Increase slippage tolerance."),
  ("1inch: insufficient input amount", "Input amount too small. Try a larger amount."),
  ("1inch: insufficient liquidity", "Not enough liquidity. Try a smaller amount."),
  ("1inch: expired", "Quote expired. Please try again."),
  ("1inch: transfer failed", "Token transfer failed. Check your approval."),
  ("Curve: insufficient output", "Price moved too much. Increase slippage tolerance."),
  ("Curve: insufficient input", "Input amount too small. Try a larger amount."),
  ("Curve: insufficient liquidity", "Not enough liquidity for this trade."),
  ("Curve: expired", "Quote expired. Please try again."),
  ("Curve: slippage", "Price moved beyond your slippage tolerance."),
  ("Curve: math error", "Calculation error. Please try again."),
  ("Balancer: insufficient output", "Price moved too much. Increase slippage tolerance."),
  ("Balancer: insufficient input", "Input amount too small. Try a larger amount."),
  ("Balancer: insufficient liquidity", "Not enough liquidity for this trade."),
  ("Balancer: expired", "Quote expired. Please try again."),
  ("Balancer: paused", "Pool is paused. Please try again later."),
  ("Balancer: swap disabled", "Swap is disabled for this pool."),
  ("DODO: insufficient output", "Price moved too much. Increase slippage tolerance."),
  ("DODO: insufficient input", "Input amount too small. Try a larger amount."),
  ("DODO: insufficient liquidity", "Not enough liquidity for this trade."),
  ("DODO: expired", "Quote expired. Please try again."),
  ("KyberSwap: insufficient output", "Price moved too much. Increase slippage tolerance."),
  ("KyberSwap: insufficient input", "Input amount too small. Try a larger amount."),
  ("KyberSwap: insufficient liquidity", "Not enough liquidity for this trade."),
  ("KyberSwap: expired", "Quote expired. Please try again."),
  ("gas required exceeds allowance", "Gas limit too low. Try increasing the gas limit."),
  ("intrinsic gas too low", "Gas limit is too low for this transaction. Increase gas limit."),
  ("out of gas", "Transaction ran out of gas. Try increasing the gas limit."),
  ("exceeds block gas limit", "Transaction too large. Try splitting into smaller transactions."),
  ("max fee per gas less than block base fee", "Gas price too low. Increase your gas fee."),
  ("replacement transaction underpriced", "Gas price too low to replace pending transaction. Increase gas fee."),
  ("REPLACEMENT_UNDERPRICED", "Gas price too low to speed up transaction. Increase gas fee."),
  ("max priority fee per gas higher than max fee per gas", "Invalid gas settings. Priority fee cannot exceed max fee."),
  ("transaction underpriced", "Gas price too low. Increase your gas fee and try again."),
  ("NONCE_EXPIRED", "Transaction outdated. Please refresh and try again."),
  ("nonce too low", "You have a pending transaction. Wait for it to complete or speed it up."),
  ("nonce too high", "Transaction sequence error. Try resetting your wallet\x27s transaction history."),
  ("already known", "This transaction is already pending. Please wait for it to complete."),
  ("replacement fee too low", "Fee too low to replace pending transaction. Increase gas fee."),
  ("TRANSACTION_REPLACED", "Your transaction was replaced by another one."),
  ("EXPIRED", "The swap took too long to confirm. Please try again with a higher gas fee."),
  ("transaction failed", "The transaction failed. Please try again."),
  ("execution reverted", "Transaction was rejected by the network. Check your inputs."),
  ("reverted", "Transaction failed. Please check your inputs and try again."),
  ("revert", "Transaction failed. Please check your inputs and try again."),
  ("CALL_EXCEPTION", "The contract call failed. Please try again."),
  ("invalid opcode", "Smart contract error. Please try again or contact support."),
  ("stack too deep", "Smart contract error. Please try again."),
  ("NOT_IMPLEMENTED", "This feature is not implemented yet."),
  ("UNSUPPORTED_OPERATION", "This operation is not supported."),
  ("SERVER_ERROR", "Server error occurred. Please try again."),
  ("BAD_DATA", "Invalid data provided. Please check your inputs."),
  ("CANCELLED", "The operation was cancelled."),
  ("BUFFER_OVERRUN", "Buffer overflow error. Please try again."),
  ("NUMERIC_FAULT", "Numeric calculation error. Please check your values."),
  ("INVALID_ARGUMENT", "Invalid argument provided. Please check your inputs."),
  ("MISSING_ARGUMENT", "Required argument is missing. Please provide all required parameters."),
  ("UNEXPECTED_ARGUMENT", "Unexpected argument provided. Please check your inputs."),
  ("VALUE_MISMATCH", "Value mismatch error. Please check your inputs."),
  ("UNCONFIGURED_NAME", "Name not configured. Please check your configuration."),
  ("OFFCHAIN_FAULT", "Off-chain error occurred. Please try again."),
  ("0x01", "Assertion failed. Internal contract error."),
  ("0x11", "Arithmetic error: Number too big or too small (overflow/underflow)."),
  ("0x12", "Division by zero error."),
  ("0x21", "Invalid number conversion (enum conversion failed)."),
  ("0x22", "Data storage error (incorrectly encoded storage byte array)."),
  ("0x31", "Empty array pop error."),
  ("0x32", "Array index out of bounds exception."),
  ("0x41", "Memory allocation error (too much memory requested)."),
  ("0x51", "Internal function call error (zero-initialized variable)."),
  ("NETWORK_ERROR", "Network connection issue. Please check your internet and try again."),
  ("network changed", "Network changed. Please reconnect your wallet."),
  ("TIMEOUT", "Request timed out. Please check your connection and try again."),
  ("Failed to fetch", "Network error. Please check your internet connection."),
  ("NetworkError", "Connection failed. Check your internet and try again."),
  ("could not detect network", "Unable to connect to the network. Please try again."),
  ("missing response", "No response from the network. Please try again."),
  ("connection refused", "Could not connect to the network. Try again later."),
  ("ETIMEDOUT", "Connection timed out. Please try again."),
  ("ECONNREFUSED", "Connection refused. Please try again later."),
  ("network does not support", "This feature is not supported on this network."),
  ("-32700", "Invalid request format (Parse Error). Please try again."),
  ("-32600", "Invalid request. Please try again."),
  ("-32601", "Method not supported by your wallet."),
  ("-32602", "Invalid parameters. Please check your inputs."),
  ("-32603", "Internal JSON-RPC error. Please try again."),
  ("-32000", "Server error. Please try again."),
  ("-32001", "Resource not found. Please try again."),
  ("-32002", "Request already pending. Please wait."),
  ("-32003", "Transaction rejected by the network."),
  ("-32004", "Method not supported."),
  ("-32005", "Request limit exceeded. Please wait and try again."),
  ("-32006", "Request limit exceeded. Please wait and try again."),
  ("4001", "You declined the request in your wallet."),
  ("4100", "Wallet is locked or the requested method is not authorized."),
  ("4200", "This method is not supported by your wallet."),
  ("4900", "Wallet is disconnected. Please reconnect."),
  ("4901", "Wallet is connected to a different network. Please switch networks."),
  ("5000", "User rejected the request."),
  ("5001", "Chain ID does not match."),
  ("InternalRpcError", "Internal RPC error. Please try again."),
  ("HttpRequestError", "HTTP request failed. Please check your connection."),
  ("InvalidInputError", "Invalid input provided. Please check your parameters."),
  ("TransactionNotFoundError", "Transaction not found. Please check the transaction hash."),
  ("BlockNotFoundError", "Block not found. Please check the block number or hash."),
  ("LogNotFoundError", "Log not found. Please check your query parameters."),
  ("Session expired", "Your session expired. Please reconnect your wallet."),
  ("Session disconnected", "Wallet disconnected. Please reconnect."),
  ("WalletConnect: User rejected", "You declined the request in your wallet."),
  ("No matching key", "Session not found. Please reconnect your wallet."),
  ("Pairing expired", "Connection expired. Please scan the QR code again."),
  ("Topic is not a pairing topic", "Invalid wallet connection. Please reconnect."),
  ("Missing or invalid", "Connection error. Please try reconnecting."),
  ("Relay connection failed", "Connection to wallet relay failed. Try again."),
  ("MetaMask Tx Signature", "MetaMask encountered an issue signing the transaction."),
  ("MetaMask Message Signature", "MetaMask couldn\x27t sign the message. Please try again."),
  ("MetaMask Personal Message Signature", "MetaMask personal sign failed. Please try again."),
  ("MetaMask Typed Message Signature", "MetaMask typed data signing failed. Please try again."),
  ("MetaMask Chain", "Please switch networks in MetaMask to continue."),
  ("MetaMask RPC Error", "MetaMask encountered an RPC error. Please try again."),
  ("User denied account authorization", "You declined to connect your MetaMask account."),
  ("Already processing eth_requestAccounts", "MetaMask is already processing a connection request."),
  ("Request of type \x27wallet_requestPermissions\x27 already pending", "A permission request is already pending in MetaMask."),
  ("eth_accounts not supported", "Please unlock MetaMask and try again."),
  ("WalletNotConnectedError", "Wallet not connected. Please connect your wallet first."),
  ("WalletConnectionError", "Failed to connect wallet. Please try again."),
  ("WalletSendTransactionError", "Failed to send transaction. Please try again."),
  ("WalletSignTransactionError", "You cancelled the transaction signing."),
  ("WalletSignMessageError", "Message signing failed. Please try again."),
  ("WalletNotReadyError", "Wallet not ready. Please ensure it\x27s installed and unlocked."),
  ("WalletPublicKeyError", "Could not get wallet address. Please reconnect."),
  ("WalletDisconnectionError", "Failed to disconnect wallet. Please try again."),
  ("WalletAccountError", "Could not access wallet account."),
  ("WalletNotSelectedError", "No wallet selected. Please select a wallet first."),
  ("Phantom - Rejected", "You declined the request in Phantom."),
  ("Phantom - Unauthorized", "Phantom is not authorized. Please connect first."),
  ("Phantom - Disconnected", "Phantom is disconnected. Please reconnect."),
  ("Phantom wallet not found", "Phantom wallet not detected. Please install Phantom."),
  ("Solflare - Rejected", "You declined the request in Solflare."),
  ("Backpack - Rejected", "You declined the request in Backpack."),
  ("Transaction simulation failed", "Transaction simulation failed. Check your inputs."),
  ("Blockhash not found", "Transaction expired. Please try again."),
  ("Transaction was not confirmed", "Transaction wasn\x27t confirmed in time. It may still succeed."),
  ("block height exceeded", "Transaction expired. Please try again with fresh blockhash."),
  ("Signature verification failed", "Transaction signature verification failed."),
  ("Account not found", "Wallet account not found. Please check the address."),
  ("Insufficient SOL", "Not enough SOL for transaction fees."),
  ("Insufficient lamports", "Not enough SOL balance for this transaction."),
  ("Program failed to complete", "The program execution failed. Please try again."),
  ("custom program error", "Smart contract returned an error. Please check your inputs."),
  ("AccountNotFound", "The specified account doesn\x27t exist."),
  ("InstructionError", "Transaction instruction failed. Please check your inputs."),
  ("InvalidAccountData", "Invalid account data. Please try again."),
  ("0x1771", "Price moved beyond your slippage limit on Solana. Try increasing it."),
  ("0x1788", "Jupiter route calculation error. Try refreshing the quote."),
  ("0x1", "Solana program error. Usually indicates insufficient funds or invalid instruction."),
  ("0x1770", "The liquidity pool has changed. Refresh the page for a new quote."),
  ("Slippage tolerance exceeded", "Price changed too fast. Increase your slippage tolerance."),
  ("Compute budget exceeded", "The transaction is too complex for Solana. Try a simpler route."),
  ("BlockhashNotFound", "Transaction expired. Solana network is busy, please try again."),
  ("USER_REJECTS_ERROR", "You declined the request in your TON wallet."),
  ("UNKNOWN_APP_ERROR", "Unknown app error. Please reconnect your wallet."),
  ("BAD_REQUEST_ERROR", "Invalid request. Please try again."),
  ("UNKNOWN_ERROR", "An unknown error occurred in your TON wallet."),
  ("METHOD_NOT_SUPPORTED", "This method is not supported by your TON wallet."),
  ("TON_CONNECT_ERROR", "TON Connect error. Please reconnect your wallet."),
  ("Tonkeeper - Rejected", "You declined the request in Tonkeeper."),
  ("Tonkeeper - Cancelled", "You cancelled the request in Tonkeeper."),
  ("OpenMask - Rejected", "You declined the request in OpenMask."),
  ("MyTonWallet - Rejected", "You declined the request in MyTonWallet."),
  ("TonConnect: Connection was closed", "Wallet connection was closed. Please reconnect."),
  ("TonConnect: Bridge connection error", "Connection error. Please try reconnecting your TON wallet."),
  ("TonConnect: Session not found", "Session expired. Please reconnect your TON wallet."),
  ("Unable to verify source", "Unable to verify wallet source. Please reconnect."),
  ("Wallet is not connected", "TON wallet not connected. Please connect first."),
  ("Invalid BOC", "Invalid transaction data. Please try again."),
  ("Not enough TON", "Not enough TON for this transaction."),
  ("Not enough balance", "Insufficient balance for this transaction."),
  ("Cell underflow", "Transaction data mismatch (cellUnderflow). Please check your parameters and try again."),
  ("Cell overflow", "Transaction data is too large (cellOverflow). Please check your parameters and try again."),
  ("Invalid seqno", "Transaction sequence number is incorrect. Please try again."),
  ("Bounced transaction", "Transaction was rejected and bounced back. Please check your transaction parameters."),
  ("Invalid fees", "Transaction fees are insufficient. Please increase the fee amount and try again."),
  ("TronLink - Rejected", "You declined the request in TronLink."),
  ("TronLink - Cancelled", "You cancelled the request in TronLink."),
  ("TronLink not installed", "Please install TronLink wallet extension."),
  ("TronLink is locked", "TronLink is locked. Please unlock it first."),
  ("TronLink not ready", "TronLink is not ready. Please wait and try again."),
  ("Confirmation declined by user", "You declined the transaction in TronLink."),
  ("BANDWITH", "Not enough bandwidth for this transaction. Please freeze TRX."),
  ("BANDWIDTH", "Not enough bandwidth. Please freeze TRX for bandwidth."),
  ("ENERGY", "Not enough energy for this transaction. Please freeze TRX for energy."),
  ("BALANCE_NOT_SUFFICIENT", "Insufficient TRX balance."),
  ("CONTRACT_VALIDATE_ERROR", "Contract validation failed. Please check your inputs."),
  ("REVERT", "Transaction reverted. Please check your inputs."),
  ("OUT_OF_ENERGY", "Out of energy. Please freeze TRX or reduce transaction complexity."),
  ("Account resource insufficient", "Not enough bandwidth or energy. Please freeze TRX."),
  ("Contract not found", "Smart contract not found. Please check the address."),
  ("FoxWallet - Rejected", "You declined the request in FoxWallet."),
  ("WALLET.CONNECT_ERROR", "Failed to connect to Sui wallet. Please try again."),
  ("WALLET.DISCONNECT_ERROR", "Failed to disconnect from Sui wallet."),
  ("WALLET.SIGN_TX_ERROR", "Transaction signing failed or was rejected."),
  ("WALLET.SIGN_MSG_ERROR", "Message signing failed. Please try again."),
  ("WALLET.LISTEN_TO_EVENT_ERROR", "Failed to listen to wallet events."),
  ("WALLET.METHOD_NOT_IMPLEMENTED_ERROR", "This method is not supported by your wallet."),
  ("WALLET.CONNECT_ERROR__USER_REJECTED", "You declined to connect your Sui wallet."),
  ("Sui Wallet - Rejected", "You declined the request in Sui Wallet."),
  ("Suiet - Rejected", "You declined the request in Suiet wallet."),
  ("Ethos - Rejected", "You declined the request in Ethos wallet."),
  ("Martian Sui - Rejected", "You declined the request in Martian Sui wallet."),
  ("Insufficient gas", "Not enough SUI for gas fees."),
  ("InsufficientGas", "Not enough SUI to pay for transaction fees."),
  ("InsufficientCoinBalance", "Insufficient coin balance for this transaction."),
  ("ObjectNotFound", "The specified object was not found on chain."),
  ("InvalidTxSignature", "Invalid transaction signature."),
  ("MoveAbort", "Smart contract execution failed."),
  ("PackageNotFound", "Package not found. Please check the address."),
  ("DynamicFieldNotFound", "Dynamic field not found."),
  ("InvalidPublicKey", "Invalid public key provided."),
  ("ModuleNotFound", "Contract module not found. Please verify the contract details."),
  ("FunctionNotFound", "The requested contract function is not found. Please check your transaction parameters."),
  ("GasComputationError", "Unable to calculate gas fees. Please try again or contact support."),
  ("ConsensusError", "Network consensus validation failed. Please try again in a moment."),
  ("InvalidObjectOwner", "Invalid object owner. Please check your transaction parameters."),
  ("ObjectVersionNotFound", "Object version not found. Please check your transaction parameters."),
  ("InvalidObjectType", "Invalid object type. Please check your transaction parameters."),
  ("InvalidObjectId", "Invalid object ID. Please check your transaction parameters."),
  ("Petra - Rejected", "You declined the request in Petra wallet."),
  ("Pontem - Rejected", "You declined the request in Pontem wallet."),
  ("Martian - Rejected", "You declined the request in Martian wallet."),
  ("Rise - Rejected", "You declined the request in Rise wallet."),
  ("Fewcha - Rejected", "You declined the request in Fewcha wallet."),
  ("AptosWalletError", "Aptos wallet encountered an error. Please try again."),
  ("INSUFFICIENT_BALANCE_FOR_TRANSACTION_FEE", "Not enough APT for gas fees."),
  ("SEQUENCE_NUMBER_TOO_OLD", "Transaction sequence error. Please try again."),
  ("SEQUENCE_NUMBER_TOO_NEW", "Transaction sequence too new. Please wait."),
  ("TRANSACTION_EXPIRED", "Transaction expired. Please try again."),
  ("INVALID_AUTH_KEY", "Invalid authentication key."),
  ("EPENDING_TRANSACTION_EXISTS", "A pending transaction exists. Please wait."),
  ("MAX_GAS_UNITS_BELOW_MIN_TRANSACTION_GAS_UNITS", "Gas limit too low."),
  ("MAX_GAS_UNITS_EXCEEDS_MAX_GAS_UNITS_BOUND", "Gas limit too high."),
  ("GAS_UNIT_PRICE_BELOW_MIN_BOUND", "Gas price too low."),
  ("GAS_UNIT_PRICE_ABOVE_MAX_BOUND", "Gas price too high."),
  ("MOVE_ABORT", "Smart contract execution aborted."),
  ("EXECUTION_LIMIT_REACHED", "Execution limit reached. Please try again."),
  ("OUT_OF_GAS", "Transaction ran out of gas. Increase gas limit."),
  ("INVALID_SIGNATURE", "Invalid transaction signature."),
  ("INVALID_TRANSACTION_PAYLOAD", "Invalid transaction data."),
  ("UniSat - Rejected", "You declined the request in UniSat wallet."),
  ("Xverse - Rejected", "You declined the request in Xverse wallet."),
  ("Leather - Rejected", "You declined the request in Leather wallet."),
  ("OKX Wallet - Rejected", "You declined the request in OKX Wallet."),
  ("Insufficient BTC", "Not enough BTC for this transaction."),
  ("Invalid PSBT", "Invalid transaction format. Please try again."),
  ("UTXO not found", "Transaction input not found. Please try again."),
  ("APKT001", "Network not recognized. Please check your network configuration."),
  ("APKT002", "Domain not allowed. Please verify your domain settings."),
  ("APKT003", "Wallet failed to load. Check your connection and try again."),
  ("APKT004", "Wallet timed out. Please try again."),
  ("APKT005", "Domain not verified. Please verify your domain."),
  ("APKT006", "Session expired. Please reconnect your wallet."),
  ("APKT007", "Invalid project configuration. Please check your setup."),
  ("APKT008", "Project ID missing. Please configure your project ID."),
  ("APKT009", "Server error. Please try again later."),
  ("APKT010", "Rate limited. Please wait a moment and try again."),
  ("ERC20: transfer to the zero address", "Invalid recipient address. Please check the address."),
  ("ERC20: approve to the zero address", "Invalid approval address. Please check the address."),
  ("ERC20: transfer from the zero address", "Invalid sender address."),
  ("ERC20: mint to the zero address", "Invalid minting address."),
  ("ERC20: burn from the zero address", "Invalid burn address."),
  ("ERC20: decreased allowance below zero", "Cannot decrease allowance below zero."),
  ("Pausable: paused", "This token is currently paused. Please try later."),
  ("Ownable: caller is not the owner", "You don\x27t have permission for this action."),
  ("AccessControl", "You don\x27t have the required permissions for this action."),
  ("Blacklisted", "This address has been restricted from trading."),
  ("Trading not enabled", "Trading is not yet enabled for this token."),
  ("Max transaction", "Amount exceeds maximum transaction limit."),
  ("Max wallet", "This would exceed the maximum wallet holding limit."),
  ("Buy limit", "This exceeds the buy limit for this token."),
  ("Sell limit", "This exceeds the sell limit for this token."),
  ("Cooldown", "Please wait before making another transaction."),
  ("Anti-bot", "Transaction blocked by anti-bot protection. Try again shortly."),
  ("Tax too high", "Token tax is too high for this trade."),
  ("contract not deployed", "Smart contract not found on this network. Check the network."),
  ("invalid address", "Invalid address provided. Please check and try again."),
  ("invalid signature", "Invalid signature. Please try signing again."),
  ("signature expired", "Signature expired. Please sign again."),
  ("deadline", "Transaction deadline passed. Please try again."),
  ("Deadline expired", "Quote expired. Please refresh and try again."),
  ("Already initialized", "This contract is already set up."),
  ("Not initialized", "Contract not ready. Please try again later."),
  ("invalid permit", "Permit signature is invalid. Please try approving again."),
  ("permit expired", "Permit expired. Please sign a new approval."),
  ("INVALID_SIGNER", "Invalid signature. Please try signing again."),
  ("EXPIRED_PERMIT", "Your permit has expired. Please sign again."),
  ("frontrun", "Transaction may have been front-run. Try using MEV protection."),
  ("sandwich", "Potential sandwich attack detected. Consider using MEV protection."),
  ("MEV", "MEV protection triggered. Try using a private RPC."),
  ("Header not found", "Block not found. Please try again."),
  ("Unknown block", "Block not found. The network may be syncing."),
  ("pruned data", "Historical data not available. Try a different RPC."),
  ("rate limit", "Too many requests. Please wait a moment and try again."),
  ("Too Many Requests", "Rate limited. Please wait and try again."),
  ("exceeded", "Limit exceeded. Please try again later."),
  ("Forbidden", "Access denied. Please check your permissions."),
  ("Unauthorized", "Not authorized. Please reconnect your wallet."),
  ("Bridge error", "Cross-chain bridge error. Please try again."),
  ("Bridge timeout", "Bridge transaction timed out. Please check status."),
  ("Unsupported chain", "This chain is not supported for this operation."),
  ("Chain mismatch", "Your wallet is on the wrong network. Please switch."),
  ("Invalid destination", "Invalid destination chain or address."),
  ("Bridge paused", "Bridge is paused. Please try again later."),
  ("LayerZero: not enough native for fees", "Not enough native token to pay bridge fees. Add gas and retry."),
  ("LayerZero: destination chain is not a trusted remote", "Destination chain is not trusted. Check the target chain and retry."),
  ("LayerZero: invalid payload", "Bridge payload invalid. Retry the transaction or contact support."),
  ("LayerZero: message blocked. please retry on destination", "Bridge message blocked. Retry on the destination chain."),
  ("LayerZero: LzTokenUnavailable", "The bridge does not have enough liquidity of this token right now."),
  ("1001", "No route found. Your address might not have enough balance for any available bridge."),
  ("1007", "Slippage error on the bridge. The exchange rate changed during the transfer."),
  ("NOT_PROCESSABLE_REFUND_NEEDED", "The bridge failed due to price movement. A refund has been triggered."),
  ("AMOUNT_TOO_LOW", "The amount is too small to bridge. Please send more."),
  ("AMOUNT_TOO_HIGH", "This bridge has a limit. Try a smaller amount or a different bridge."),
  ("Stargate: Not enough liquidity", "The destination chain\x27s pool is low on funds. Try again later."),
  ("retryable ticket expired", "Arbitrum retryable expired. Re-send the transaction or re-create the ticket."),
  ("insufficient submission cost", "L1 submission cost too low. Increase max fee and retry."),
  ("max gas too low", "Not enough gas for L2 execution. Increase gas limit and retry."),
  ("oversize data", "Transaction data too large for Arbitrum. Reduce transaction size."),
  ("L2 execution failed", "Execution failed on L2. Increase gas or check the contract call."),
  ("fee too low to cover L1 data", "Base fee too low to pay L1 data costs. Increase the fee and retry."),
  ("Ledger device", "Please connect and unlock your Ledger device."),
  ("Ledger locked", "Your Ledger is locked. Please unlock it."),
  ("TransportOpenUserCancelled", "Ledger connection was cancelled."),
  ("TransportInterfaceNotAvailable", "Ledger not accessible. Try reconnecting."),
  ("DisconnectedDevice", "Ledger disconnected. Please reconnect."),
  ("DisconnectedDeviceDuringOperation", "Ledger disconnected during operation. Please reconnect and retry."),
  ("Denied by user on Ledger", "You rejected the request on your Ledger device."),
  ("Open app", "Please open the correct app on your Ledger."),
  ("App does not seem to be open", "Please open the right app on your Ledger."),
  ("Device is busy", "Ledger is busy. Please wait and try again."),
  ("Invalid channel", "Invalid Ledger connection. Please reconnect."),
  ("Trezor: Action cancelled", "You cancelled the action on your Trezor."),
  ("Trezor: PIN cancelled", "PIN entry was cancelled on Trezor."),
  ("Trezor: Passphrase cancelled", "Passphrase entry was cancelled on Trezor."),
  ("Device call in progress", "Hardware wallet is processing. Please wait."),
  ("Coinbase Wallet - Rejected", "You declined the request in Coinbase Wallet."),
  ("User denied request signature", "You declined the signature request."),
  ("QR Code Modal closed", "QR code scanning was cancelled."),
  ("Trust Wallet - Rejected", "You declined the request in Trust Wallet."),
  ("Trust: User cancelled", "You cancelled the request in Trust Wallet."),
  ("Rainbow - Rejected", "You declined the request in Rainbow."),
  ("Rabby - Rejected", "You declined the request in Rabby."),
  ("Rabby: User rejected", "You declined the request in Rabby wallet."),
  ("Safe transaction failed", "Safe transaction execution failed."),
  ("Signature request rejected", "Safe signature request was rejected."),
  ("Transaction rejected by Safe", "Transaction was rejected in Safe."),
  ("Not enough signatures", "More signatures are needed for this Safe transaction."),
  ("Threshold not reached", "Not enough owners have signed this Safe transaction."),
  ("GS000", "Safe initialization failed. Check your setup parameters."),
  ("GS013", "The transaction within your Safe failed. One of the contract calls reverted."),
  ("GS025", "Transaction hash not approved. Owners need to sign the same data."),
  ("GS026", "Invalid owner provided. The address is not part of this Safe."),
  ("GS031", "The Safe is locked for this operation. Try again shortly."),
  ("Keplr - Rejected", "You declined the request in Keplr."),
  ("Request rejected by user", "You declined the request."),
  ("Failed to retrieve account", "Could not get account from Keplr. Please reconnect."),
  ("Key not found", "Account not found. Please add this chain to Keplr."),
  ("Argent - Rejected", "You declined the request in Argent."),
  ("Guardian signature required", "Your Argent guardian needs to approve this."),
  ("Frame - Rejected", "You declined the request in Frame."),
  ("Zerion - Rejected", "You declined the request in Zerion."),
  ("Wallet not installed", "Please install a compatible wallet."),
  ("Wallet not found", "Wallet not detected. Please install one."),
  ("Wallet not connected", "Wallet not connected. Please connect first."),
  ("No accounts found", "No accounts found in your wallet."),
  ("Account changed", "Your wallet account changed. Please verify."),
  ("Chain changed", "Your wallet network changed."),
  ("Wallet disconnected", "Wallet was disconnected. Please reconnect."),
  ("Invalid chain", "Invalid blockchain network. Please switch networks."),
  ("Chain not supported", "This blockchain is not supported."),
  ("Invalid token", "Invalid token address. Please check the token."),
  ("Token not found", "Token not found on this network."),
  ("Pair not found", "Trading pair not found. Please check the tokens."),
  ("Route not found", "No swap route found. Try different tokens."),
  ("Price impact too high", "Price impact is too high. Try a smaller amount."),
  ("Minimum amount not met", "Amount is below the minimum. Try a larger amount."),
  ("Maximum amount exceeded", "Amount exceeds the maximum. Try a smaller amount."),
  ("Pool not found", "Liquidity pool not found. Please check the tokens."),
  ("Pool paused", "This pool is paused. Please try again later."),
  ("Pool closed", "This pool is closed. Please try a different pool."),
  ("Invalid deadline", "Transaction deadline is invalid. Please try again."),
  ("Deadline too short", "Transaction deadline is too short. Please increase it."),
  ("Invalid recipient", "Invalid recipient address. Please check the address."),
  ("Invalid sender", "Invalid sender address. Please check your wallet."),
  ("Invalid amount", "Invalid amount specified. Please check your input."),
  ("Amount too small", "Amount is too small. Please try a larger amount."),
  ("Amount too large", "Amount is too large. Please try a smaller amount."),
  ("Zero amount", "Amount cannot be zero. Please specify an amount."),
  ("Same token", "Cannot swap the same token. Please select different tokens."),
  ("Invalid path", "Invalid swap path. Please try again."),
  ("Path too long", "Swap path is too long. Please try a simpler route."),
  ("Path not found", "No swap path found. Please try different tokens."),
  ("recipient address is required", "Recipient address is required. Please enter the recipient\x27s wallet address."),
  ("amount must be greater than 0", "Please enter an amount greater than 0."),
  ("token chain id is required", "Network information is missing. Please select the correct network for this token."),
  ("token address is required", "Token address is required. Please provide a token contract address."),
  ("token decimals is required", "Token decimal is required. Please provide the correct token details."),
  ("wallet not connected or chain not selected", "Wallet not connected or network not selected. Please connect your wallet and choose the correct network."),
  ("fee rate unavailable", "Unable to calculate transaction fees. Please try again in a moment."),
  ("missing exchange params", "Exchange parameters are missing. Please refresh the page and try again."),
  ("exchange order failed", "Exchange order could not be completed. Please try again or contact support."),
  ("utxo fetch failed", "Unable to calculate transaction fees (UTXO). Please try again in a moment."),
  ("psbt signing failed", "Bitcoin transaction signing failed (PSBT). Please try signing the transaction again."),
  ("invalid signed psbt", "Invalid Bitcoin transaction signature (PSBT). Please sign the transaction again."),
  ("has not been authorized by the user", "Wallet connection issue detected. Please disconnect and reconnect your wallet."),
  ("fail swap, not enough fee", "Swap failed due to insufficient funds. Please ensure you have enough funds to complete the transaction."),
  ("insufficient native currency sent", "Not enough native currency was sent with the transaction. Please check the required amount and try again."),
  ("stack limit reached", "Stack limit reached. This might be due to complex operations or infinite loops. Please try again with a simpler operation."),
  ("method handler crashed", "There is an error in the operation. Please try again."),
  ("execution timeout", "Transaction took too long to execute. Please try again."),
  ("filter not found", "Filter expired. Please try again."),
  ("attempting to switch chain", "Unable to switch to the required network. Please manually switch networks in your wallet."),
  ("-32009", "Debug requests are currently limited. Please try again later."),
  ("-32010", "Transaction cost exceeds gas limit. Please increase gas limit."),
  ("-32011", "Network connection error. Please check your connection and try again."),
  ("-32015", "Smart contract execution failed. Please check your transaction parameters and try again."),
  ("-32612", "Custom traces are not available."),
  ("-32613", "Requested trace type not allowed."),
  ("LogRangeLimited", "Too many blocks requested at once (limit: 10,000). Please reduce the block range."),
  ("CustomTracesBlocked", "Custom traces are not available."),
  ("L2: insufficient balance", "Insufficient balance on Layer 2. Please bridge funds."),
  ("L2: deposit pending", "Deposit to Layer 2 is still pending. Please wait."),
  ("L2: withdrawal pending", "Withdrawal from Layer 2 is still pending. Please wait."),
  ("L2: bridge error", "Bridge error occurred. Please try again."),
  ("L2: not available", "Layer 2 feature is not available. Please try again later."),
  ("Staking: insufficient balance", "Insufficient balance for staking."),
  ("Staking: already staked", "You have already staked. Please unstake first."),
  ("Staking: not staked", "You have not staked yet. Please stake first."),
  ("Staking: locked", "Staking is locked. Please wait for the lock period to end."),
  ("Staking: paused", "Staking is paused. Please try again later."),
  ("Rewards: not available", "Rewards are not available yet. Please wait."),
  ("Rewards: already claimed", "Rewards have already been claimed."),
  ("Vesting: locked", "Tokens are still vesting. Please wait."),
  ("Vesting: not started", "Vesting has not started yet. Please wait."),
  ("NFT: not owner", "You do not own this NFT."),
  ("NFT: not approved", "NFT transfer is not approved. Please approve first."),
  ("NFT: already minted", "This NFT has already been minted."),
  ("NFT: minting paused", "NFT minting is paused. Please try again later."),
  ("NFT: max supply reached", "Maximum supply reached. No more NFTs available."),
  ("NFT: invalid token ID", "Invalid NFT token ID. Please check the token ID."),
  ("NFT: not found", "NFT not found. Please check the token ID."),
  ("Multisig: insufficient signatures", "Not enough signatures. More signatures required."),
  ("Multisig: duplicate signature", "Duplicate signature detected."),
  ("Multisig: invalid signature", "Invalid signature provided."),
  ("Multisig: threshold not met", "Signature threshold not met."),
  ("Multisig: owner not found", "Owner not found in the multisig wallet."),
  ("Oracle: price not available", "Price data is not available. Please try again."),
  ("Oracle: stale price", "Price data is stale. Please refresh."),
  ("Oracle: price too old", "Price data is too old. Please refresh."),
  ("Oracle: invalid price", "Invalid price data. Please try again."),
  ("Flash loan: insufficient liquidity", "Not enough liquidity for flash loan."),
  ("Flash loan: callback failed", "Flash loan callback failed. Please check your contract."),
  ("Flash loan: not repaid", "Flash loan was not repaid. Please repay the loan."),
  ("Flash loan: invalid amount", "Invalid flash loan amount. Please check your request."),
  ("0x08c379a0", "The transaction reverted with a reason string."),
  ("0x4e487b71", "The transaction panicked (arithmetic overflow or division by zero)."),
  ("0x8baa579f", "Insufficient balance for this swap."),
  ("0xf4844814", "Slippage error: The amount out is less than your minimum requirement."),
  ("0x31a57e3b", "The deadline for this transaction has passed.")
]

/-! ## Pattern index and matcher (`src/utils/matching.ts`) -/

/-- `LocalErrorEntry` from `src/types.ts`. -/
structure LocalErrorEntry where
  key : String
  keyLower : String
  message : String
  isCode : Bool
  isShortToken : Bool
deriving DecidableEq

/-- `/[\s:._-]/.test(keyLower)`: the key contains a separator character. -/
def hasSeparatorChar (s : String) : Bool :=
  s.toList.any (fun c => jsWhitespace c || keptSeparator c)

/-- ASCII digit, JavaScript regex class `\d`. -/
def asciiDigit (c : Char) : Bool := '0' ≤ c && c ≤ '9'

/-- `/^-?\d+$/.test(keyLower)`: an optional leading minus followed by one or
more digits. -/
def isCodePattern (s : String) : Bool :=
  match s.toList with
  | '-' :: rest => !rest.isEmpty && rest.all asciiDigit
  | l => !l.isEmpty && l.all asciiDigit

/-- `keyLower.length < 4 && !hasSeparator && !isCode`, the short-token
classification computed per entry in `src/utils/matching.ts`. -/
def shortTokenPattern (s : String) : Bool :=
  decide (s.length < 4) && !hasSeparatorChar s && !isCodePattern s

/-- Construction of one `LocalErrorEntry` as in the `LOCAL_ERROR_ENTRIES`
mapper of `src/utils/matching.ts`. -/
def mkLocalErrorEntry (key message : String) : LocalErrorEntry :=
  let keyLower := normalize key
  { key := key, keyLower := keyLower, message := message,
    isCode := isCodePattern keyLower,
    isShortToken := shortTokenPattern keyLower }

/-- `LOCAL_ERROR_ENTRIES`: one entry per dictionary pair, precomputed at
module load. -/
def LOCAL_ERROR_ENTRIES : List LocalErrorEntry :=
  LOCAL_ERROR_MAP.map (fun p => mkLocalErrorEntry p.1 p.2)

/-- Lookup in a JavaScript `Map` built by iterating `set` over the entry
list, keyed on `keyLower`: the last insertion with the queried key wins. -/
def jsMapGet (l : List LocalErrorEntry) (n : String) : Option LocalErrorEntry :=
  l.foldl (fun acc e => if e.keyLower == n then some e else acc) none

/-- The entries inserted into `CODE_MAP` by the build loop of
`src/utils/matching.ts`: exactly the `isCode` entries. -/
def CODE_ENTRIES : List LocalErrorEntry :=
  LOCAL_ERROR_ENTRIES.filter (fun e => e.isCode)

/-- The entries pushed onto `SORTED_SUBSTRING_ENTRIES` before sorting:
non-code entries that are not short tokens, in declaration order. -/
def SUBSTRING_ENTRIES : List LocalErrorEntry :=
  LOCAL_ERROR_ENTRIES.filter (fun e => !e.isCode && !e.isShortToken)

/-- One insertion step of the stable sort by descending `keyLower` length
(the comparator `(a, b) => b.keyLower.length - a.keyLower.length`): the new
element goes after every element whose key is at least as long. -/
def insertByLenDesc (e : LocalErrorEntry) : List LocalErrorEntry → List LocalErrorEntry
  | [] => [e]
  | x :: xs =>
    if x.keyLower.length < e.keyLower.length then e :: x :: xs
    else x :: insertByLenDesc e xs

/-- `SORTED_SUBSTRING_ENTRIES`: the substring candidates stably sorted by
descending normalized-key length. -/
def SORTED_SUBSTRING_ENTRIES : List LocalErrorEntry :=
  SUBSTRING_ENTRIES.foldl (fun acc e => insertByLenDesc e acc) []

/-- Substring containment on character lists, as
`String.prototype.includes`. -/
def listContains (s pat : List Char) : Bool :=
  if pat.isPrefixOf s then true
  else
    match s with
    | [] => false
    | _ :: t => listContains t pat

/-- `String.prototype.includes` on strings. -/
def strIncludes (s pat : String) : Bool := listContains s.toList pat.toList

/-- The result shape of `matchLocalErrorDetailed`. -/
structure MatchResult where
  matchedKey : String
  message : String
deriving DecidableEq

/-- `matchLocalErrorDetailed` from `src/utils/matching.ts`: normalize, then
exact code lookup in `CODE_MAP`, then exact phrase lookup in
`EXACT_MATCH_MAP` (which holds every entry keyed by `keyLower`), then the
first substring hit in the length-sorted candidate list, else `null`. -/
def matchLocalErrorDetailed (rawMessage : String) : Option MatchResult :=
  let normalized := normalize rawMessage
  match jsMapGet CODE_ENTRIES normalized with
  | some codeMatch => some ⟨codeMatch.key, codeMatch.message⟩
  | none =>
    match jsMapGet LOCAL_ERROR_ENTRIES normalized with
    | some exactMatch => some ⟨exactMatch.key, exactMatch.message⟩
    | none =>
      match SORTED_SUBSTRING_ENTRIES.find? (fun e => strIncludes normalized e.keyLower) with
      | some e => some ⟨e.key, e.message⟩
      | none => none

/-! ## Extractor (`src/utils/extraction.ts`) -/

/-- The revert sub-error that `error.walk` finds in a viem `BaseError`
chain, modelled by its precomputed result: an optional `reason` (absent
models `undefined`) and a `shortMessage`. -/
structure RevertError where
  reason : Option String
  shortMessage : String
deriving DecidableEq

/-- JavaScript runtime values inspected by `extractRawMessage` (see the
header comment for the modelling conventions).  An `errorVal` is a generic
`Error` instance with its `message` and optional `cause`; a `baseErrorVal`
is a viem `BaseError` with its `message`, `shortMessage` and the optional
result of walking for a `ContractFunctionRevertedError`. -/
inductive JsValue where
  | undef
  | null
  | boolVal (b : Bool)
  | numVal (n : Int)
  | strVal (s : String)
  | bigIntVal (n : Int)
  | objVal (fields : List (String × JsValue))
  | errorVal (message : String) (cause : Option JsValue)
  | baseErrorVal (message : String) (shortMessage : String) (revert : Option RevertError)

/-- Own-property lookup on a plain object's field list (object literals
have unique keys, so first match suffices). -/
def lookupField : List (String × JsValue) → String → Option JsValue
  | [], _ => none
  | (k, v) :: rest, key => if k == key then some v else lookupField rest key

/-- JavaScript truthiness of a modelled value. -/
def truthy : JsValue → Bool
  | .undef => false
  | .null => false
  | .boolVal b => b
  | .numVal n => n != 0
  | .strVal s => s != ""
  | .bigIntVal n => n != 0
  | .objVal _ => true
  | .errorVal _ _ => true
  | .baseErrorVal _ _ _ => true

/-- `typeof x === "object"` for a modelled value. -/
def typeofIsObject : JsValue → Bool
  | .null => true
  | .objVal _ => true
  | .errorVal _ _ => true
  | .baseErrorVal _ _ _ => true
  | _ => false

/-- Property access on any modelled value (`undefined`-producing accesses
return `none`): field lookup on plain objects, and the `message`, `cause`
and `shortMessage` properties of modelled `Error` values. -/
def getProp : JsValue → String → Option JsValue
  | .objVal fields, key => lookupField fields key
  | .errorVal m _, "message" => some (.strVal m)
  | .errorVal _ c, "cause" => c
  | .baseErrorVal m _ _, "message" => some (.strVal m)
  | .baseErrorVal _ sm _, "shortMessage" => some (.strVal sm)
  | _, _ => none

/-- Decimal rendering of `String(code)` for a numeric code, and of JSON
numbers (integers in the model). -/
def intToString (n : Int) : String := toString n

/-- First-match lookup of an original (unnormalized) dictionary key, as the
property read `LOCAL_ERROR_MAP[codeStr]`. -/
def dictLookup (key : String) : Option String :=
  (LOCAL_ERROR_MAP.find? (fun p => p.1 == key)).map (fun p => p.2)

/-- JSON string quoting as `JSON.stringify` renders one string. -/
def jsonQuoteChar (c : Char) : List Char :=
  if c == '"' then ['\\', '"']
  else if c == '\\' then ['\\', '\\']
  else if c.toNat == 0x08 then ['\\', 'b']
  else if c.toNat == 0x09 then ['\\', 't']
  else if c.toNat == 0x0A then ['\\', 'n']
  else if c.toNat == 0x0C then ['\\', 'f']
  else if c.toNat == 0x0D then ['\\', 'r']
  else if c.toNat < 0x20 then
    ['\\', 'u', '0', '0',
      (Nat.digitChar (c.toNat / 16)), (Nat.digitChar (c.toNat % 16))]
  else [c]

/-- Quoted JSON rendering of a string value. -/
def jsonQuote (s : String) : String :=
  String.mk ('"' :: s.toList.flatMap jsonQuoteChar ++ ['"'])

mutual

/-- `JSON.stringify`, restricted to the modelled values: `Except.error`
models the raised `TypeError` (BigInt in the model, cyclic structures in
full JavaScript), `Except.ok none` models the `undefined` result (only for
a top-level `undefined` here), and fields with an `undefined` value are
skipped.  Modelled `Error` objects serialize to an empty object because
their `message` and `cause` properties are not own enumerable properties. -/
def jsonStringify : JsValue → Except Unit (Option String)
  | .undef => .ok none
  | .null => .ok (some "null")
  | .boolVal b => .ok (some (if b then "true" else "false"))
  | .numVal n => .ok (some (intToString n))
  | .strVal s => .ok (some (jsonQuote s))
  | .bigIntVal _ => .error ()
  | .objVal fields =>
    match jsonStringifyFields fields with
    | .error e => .error e
    | .ok parts => .ok (some ("\x7b" ++ String.intercalate "," parts ++ "\x7d"))
  | .errorVal _ _ => .ok (some "\x7b\x7d")
  | .baseErrorVal _ _ _ => .ok (some "\x7b\x7d")

/-- Serialization of an object's fields in order, skipping fields whose
value serializes to nothing, propagating the raised error. -/
def jsonStringifyFields : List (String × JsValue) → Except Unit (List String)
  | [] => .ok []
  | (k, v) :: rest =>
    match jsonStringify v with
    | .error e => .error e
    | .ok none =>
      jsonStringifyFields rest
    | .ok (some s) =>
      match jsonStringifyFields rest with
      | .error e => .error e
      | .ok parts => .ok ((jsonQuote k ++ ":" ++ s) :: parts)

end

/-- The final fallback of `extractRawMessage`: `try { return
JSON.stringify(error) } catch { return "Unknown error" }`.  The `Except`
error (the caught exception) becomes the sentinel.  The `ok none` branch
(a serialization result of `undefined`) is unreachable from
`extractRawMessage`, which only reaches serialization for booleans,
numbers, BigInts and plain objects; the sentinel is used there as an
arbitrary filler. -/
def stringifyFallback (v : JsValue) : String :=
  match jsonStringify v with
  | .ok (some s) => s
  | .ok none => "Unknown error"
  | .error _ => "Unknown error"

/-- A field value found by `lookupField` is structurally smaller than the
field list, justifying the recursion of the extractor. -/
theorem sizeOf_lookupField {fields : List (String × JsValue)} {key : String}
    {v : JsValue} (h : lookupField fields key = some v) :
    sizeOf v < sizeOf fields := by
  induction fields with
  | nil => simp [lookupField] at h
  | cons p rest ih =>
    obtain ⟨k, w⟩ := p
    by_cases hk : (k == key) = true
    · simp [lookupField, hk] at h
      subst h
      simp
      omega
    · simp [lookupField, hk] at h
      have := ih h
      simp
      omega

/-- The non-recursive field checks of the plain-object branch of
`extractRawMessage`: the EIP-1193 code check (a numeric or string `code`
whose string form indexes a truthy dictionary message is returned
verbatim). -/
def objCodeCheck (fields : List (String × JsValue)) : Option String :=
  match lookupField fields "code" with
  | some (.numVal n) =>
    match dictLookup (intToString n) with
    | some m => if m != "" then some (intToString n) else none
    | none => none
  | some (.strVal s) =>
    match dictLookup s with
    | some m => if m != "" then some s else none
    | none => none
  | _ => none

/-- `typeof err.reason === "string" && err.reason`. -/
def objReasonCheck (fields : List (String × JsValue)) : Option String :=
  match lookupField fields "reason" with
  | some (.strVal s) => if s != "" then some s else none
  | _ => none

/-- The nested `data` check: when `err.data` is a truthy object, its
nonempty string `message`, then its nonempty string `reason`. -/
def objDataCheck (fields : List (String × JsValue)) : Option String :=
  match lookupField fields "data" with
  | some d =>
    if truthy d && typeofIsObject d then
      match getProp d "message" with
      | some (.strVal s) =>
        if s != "" then some s
        else
          match getProp d "reason" with
          | some (.strVal r) => if r != "" then some r else none
          | _ => none
      | _ =>
        match getProp d "reason" with
        | some (.strVal r) => if r != "" then some r else none
        | _ => none
    else none
  | none => none

/-- `typeof err.shortMessage === "string" && err.shortMessage`. -/
def objShortMessageCheck (fields : List (String × JsValue)) : Option String :=
  match lookupField fields "shortMessage" with
  | some (.strVal s) => if s != "" then some s else none
  | _ => none

/-- `typeof err.message === "string" && err.message`. -/
def objMessageCheck (fields : List (String × JsValue)) : Option String :=
  match lookupField fields "message" with
  | some (.strVal s) => if s != "" then some s else none
  | _ => none

mutual

/-- `extractRawMessage` from `src/utils/extraction.ts`: `null`/`undefined`
to the sentinel, then the viem `BaseError` branch, then the generic `Error`
branch (preferring a truthy `cause` whose recursive extraction is not the
sentinel), then the plain-object branch, then plain strings, then the
guarded `JSON.stringify` fallback. -/
def extractRawMessage (v : JsValue) : String :=
  match v with
  | .null => "Unknown error"
  | .undef => "Unknown error"
  | .baseErrorVal message shortMessage revert =>
    match revert with
    | some r =>
      match r.reason with
      | some reason =>
        if reason != "" then reason
        else if r.shortMessage != "" then r.shortMessage else message
      | none => if r.shortMessage != "" then r.shortMessage else message
    | none => if shortMessage != "" then shortMessage else message
  | .errorVal message cause =>
    match cause with
    | some c =>
      if truthy c then
        let causeMessage := extractRawMessage c
        if causeMessage != "Unknown error" then causeMessage else message
      else message
    | none => message
  | .objVal fields =>
    match extractFromObject fields with
    | some s => s
    | none => stringifyFallback (.objVal fields)
  | .strVal s => s
  | .boolVal b => stringifyFallback (.boolVal b)
  | .numVal n => stringifyFallback (.numVal n)
  | .bigIntVal n => stringifyFallback (.bigIntVal n)
termination_by (sizeOf v, 1)
decreasing_by
  all_goals apply Prod.Lex.left
  all_goals simp
  all_goals omega

/-- The plain-object branch of `extractRawMessage` in source order: code,
reason, nested data, shortMessage, message, then the recursive nested
`error` and `cause` checks; `none` means the branch falls through to the
serialization fallback. -/
def extractFromObject (fields : List (String × JsValue)) : Option String :=
  match objCodeCheck fields with
  | some r => some r
  | none =>
  match objReasonCheck fields with
  | some r => some r
  | none =>
  match objDataCheck fields with
  | some r => some r
  | none =>
  match objShortMessageCheck fields with
  | some r => some r
  | none =>
  match objMessageCheck fields with
  | some r => some r
  | none =>
  match h : lookupField fields "error" with
  | some nested =>
    if truthy nested then
      let nestedMessage := extractRawMessage nested
      if nestedMessage != "Unknown error" then some nestedMessage
      else objCauseCheck fields
    else objCauseCheck fields
  | none => objCauseCheck fields
termination_by (sizeOf fields, 1)
decreasing_by
  all_goals
    first
    | exact Prod.Lex.left _ _ (sizeOf_lookupField h)
    | exact Prod.Lex.right _ (by omega)

/-- The trailing `cause` check of the plain-object branch: a truthy `cause`
whose recursive extraction is not the sentinel. -/
def objCauseCheck (fields : List (String × JsValue)) : Option String :=
  match h : lookupField fields "cause" with
  | some causeField =>
    if truthy causeField then
      let causeMessage := extractRawMessage causeField
      if causeMessage != "Unknown error" then some causeMessage else none
    else none
  | none => none
termination_by (sizeOf fields, 0)
decreasing_by
  all_goals
    exact Prod.Lex.left _ _ (sizeOf_lookupField h)

end

/-! ## Resolution facade (`src/index.ts`) -/

/-- `HumanizeSource` from `src/types.ts` (`"local" | "ai" | "fallback"`;
the first constructor is named `localSrc` because `local` is a reserved
word in Lean). -/
inductive HumanizeSource where
  | localSrc
  | ai
  | fallback
deriving DecidableEq

/-- `HumanizedResult` from `src/types.ts`; `matchedKey = none` models the
absent optional field. -/
structure HumanizedResult where
  message : String
  source : HumanizeSource
  matchedKey : Option String
  rawMessage : String
deriving DecidableEq

/-- `humanizeErrorLocal`: local dictionary only, `none` models the `null`
result.  The source's catch branch is dead in the model (see the header
comment). -/
def humanizeErrorLocal (error : JsValue) : Option String :=
  match matchLocalErrorDetailed (extractRawMessage error) with
  | some m => some m.message
  | none => none

/-- `humanizeError`: local dictionary with a fallback message (the default
argument models the TypeScript default parameter). -/
def humanizeError (error : JsValue)
    (fallback : String := DEFAULT_FALLBACK_MESSAGE) : String :=
  match humanizeErrorLocal error with
  | some m => m
  | none => fallback

/-- `humanizeErrorDetailed`: local-only resolution with provenance
metadata. -/
def humanizeErrorDetailed (error : JsValue)
    (fallback : String := DEFAULT_FALLBACK_MESSAGE) : HumanizedResult :=
  let rawMessage := extractRawMessage error
  match matchLocalErrorDetailed rawMessage with
  | some m =>
    { message := m.message, source := .localSrc,
      matchedKey := some m.matchedKey, rawMessage := rawMessage }
  | none =>
    { message := fallback, source := .fallback,
      matchedKey := none, rawMessage := rawMessage }

/-- `SwapContext` from `src/types.ts` (all fields optional, advisory only:
they are embedded into the AI prompt and never consulted by the local
matcher). -/
structure SwapContext where
  fromToken : Option String := none
  toToken : Option String := none
  amount : Option String := none
  slippage : Option String := none
  network : Option String := none
deriving DecidableEq

/-- `HumanizerConfig` from `src/types.ts`; `none` models an omitted
field. -/
structure HumanizerConfig where
  openaiApiKey : Option String := none
  aiModel : Option String := none
  fallbackMessage : Option String := none

/-- One invocation outcome of the external OpenAI chat-completion call:
either a response whose optional content models
`response.choices[0]?.message?.content` (absent choices, message or content
collapse to `none`), or a raised value. -/
inductive AIOutcome where
  | success (content : Option String)
  | failure (err : JsValue)

/-- The external backend, modelled as the outcome of each successive
invocation (indexed by the loop's attempt counter). -/
def Backend := Nat → AIOutcome

/-- The state of a `Web3ErrorHumanizer` instance: `openai` is `some`
backend exactly when the constructor received a truthy API key. -/
structure Humanizer where
  openai : Option Backend
  model : String
  fallbackMessage : String

/-- `config.x || defaultValue` for an optional string configuration field:
an omitted field and an empty string are both falsy and select the
default. -/
def jsOrDefault : Option String → String → String
  | some s, d => if s != "" then s else d
  | none, d => d

/-- The `Web3ErrorHumanizer` constructor: the OpenAI client is created only
for a truthy `openaiApiKey` (the client itself is modelled by the ambient
`backend`), `aiModel` defaults to `"gpt-4o-mini"` and `fallbackMessage` to
`DEFAULT_FALLBACK_MESSAGE` under JavaScript `||` semantics. -/
def mkWeb3ErrorHumanizer (config : HumanizerConfig) (backend : Backend) : Humanizer :=
  { openai :=
      match config.openaiApiKey with
      | some key => if key != "" then some backend else none
      | none => none,
    model := jsOrDefault config.aiModel "gpt-4o-mini",
    fallbackMessage := jsOrDefault config.fallbackMessage DEFAULT_FALLBACK_MESSAGE }

/-- `error instanceof Error && (error.message.includes("rate limit") ||
error.message.includes("429"))`; modelled `Error` values are the `errorVal`
and `baseErrorVal` constructors. -/
def isRateLimitError (e : JsValue) : Bool :=
  match e with
  | .errorVal m _ => strIncludes m "rate limit" || strIncludes m "429"
  | .baseErrorVal m _ _ => strIncludes m "rate limit" || strIncludes m "429"
  | _ => false

/-- The observable result of one `askAI` call: the returned message, the
number of backend invocations, and the backoff delays awaited (in
milliseconds, in order). -/
structure AskAIResult where
  message : String
  calls : Nat
  delays : List Nat
deriving DecidableEq

/-- The retry loop of `askAI` (`for (let attempt = 0; attempt <= retries;
attempt++)`): a successful response returns its trimmed content when
nonempty and the fallback message otherwise; a rate-limit failure before
the last attempt awaits `2 ** attempt * 1000` and retries; any other
failure before the last attempt retries immediately (neither branch of the
catch returns); a failure on the last attempt returns the fallback.  The
`attempt > retries` base case is the unreachable `return` after the
loop. -/
def askAILoop (bk : Backend) (fallbackMessage : String)
    (retries : Nat) (attempt : Nat) : AskAIResult :=
  if attempt > retries then ⟨fallbackMessage, 0, []⟩
  else
    match bk attempt with
    | .success content =>
      let trimmed :=
        match content with
        | some s => trimString s
        | none => ""
      if trimmed != "" then ⟨trimmed, 1, []⟩ else ⟨fallbackMessage, 1, []⟩
    | .failure err =>
      if isRateLimitError err && !(attempt == retries) then
        let rest := askAILoop bk fallbackMessage retries (attempt + 1)
        ⟨rest.message, rest.calls + 1, (2 ^ attempt * 1000) :: rest.delays⟩
      else if attempt == retries then ⟨fallbackMessage, 1, []⟩
      else
        let rest := askAILoop bk fallbackMessage retries (attempt + 1)
        ⟨rest.message, rest.calls + 1, rest.delays⟩
termination_by retries + 1 - attempt
decreasing_by
  all_goals omega

/-- `askAI`: returns the fallback message when no client is configured,
else runs the retry loop from attempt 0.  The prompt built from `rawError`
and `context` only feeds the external call and does not influence the
modelled control flow. -/
def Humanizer.askAI (h : Humanizer) (rawError : String)
    (context : Option SwapContext) (retries : Nat := 2) : AskAIResult :=
  match h.openai with
  | none => ⟨h.fallbackMessage, 0, []⟩
  | some bk =>
    let _ := rawError
    let _ := context
    askAILoop bk h.fallbackMessage retries 0

/-- `Web3ErrorHumanizer.humanizeDetailed`: local dictionary first; on a
miss, the `askAI` result tagged `source = "ai"` when a client is
configured, else the fallback message tagged `source = "fallback"`. -/
def Humanizer.humanizeDetailed (h : Humanizer) (error : JsValue)
    (context : Option SwapContext) : HumanizedResult :=
  let rawMessage := extractRawMessage error
  match matchLocalErrorDetailed rawMessage with
  | some localMatch =>
    { message := localMatch.message, matchedKey := some localMatch.matchedKey,
      source := .localSrc, rawMessage := rawMessage }
  | none =>
    match h.openai with
    | some _ =>
      { message := (h.askAI rawMessage context).message, source := .ai,
        matchedKey := none, rawMessage := rawMessage }
    | none =>
      { message := h.fallbackMessage, source := .fallback,
        matchedKey := none, rawMessage := rawMessage }

/-- `Web3ErrorHumanizer.humanize`: the message of the detailed result. -/
def Humanizer.humanize (h : Humanizer) (error : JsValue)
    (context : Option SwapContext) : String :=
  (h.humanizeDetailed error context).message

/-! ## Spec-side definitions

These definitions transcribe claim texts (not the source) and are compared
with the source translations above. -/

/-- Matcher algorithm as claim C2 words it: normalize; a single exact
lookup serving numeric codes and phrases alike; otherwise the first
substring hit in the precomputed length-descending candidate list;
otherwise the absent value. -/
def specMatchLocal (rawMessage : String) : Option MatchResult :=
  let normalized := normalize rawMessage
  match jsMapGet LOCAL_ERROR_ENTRIES normalized with
  | some e => some ⟨e.key, e.message⟩
  | none =>
    match SORTED_SUBSTRING_ENTRIES.find? (fun e => strIncludes normalized e.keyLower) with
    | some e => some ⟨e.key, e.message⟩
    | none => none

/-- First defined value of a rule cascade. -/
def firstSome : List (Option String) → Option String
  | [] => none
  | some r :: _ => some r
  | none :: rest => firstSome rest

/-- Claim C6 rule (a), literally: a numeric-or-string `code` field whose
string form is a key present in the dictionary, returned verbatim. -/
def claimRuleCode (fields : List (String × JsValue)) : Option String :=
  match lookupField fields "code" with
  | some (.numVal n) =>
    if (dictLookup (intToString n)).isSome then some (intToString n) else none
  | some (.strVal s) =>
    if (dictLookup s).isSome then some s else none
  | _ => none

/-- Claim C6 rule (b), literally: a `reason` string field. -/
def claimRuleReason (fields : List (String × JsValue)) : Option String :=
  match lookupField fields "reason" with
  | some (.strVal s) => some s
  | _ => none

/-- Claim C6 rule (c), literally: a nested `data` object's `message` then
`reason` string field. -/
def claimRuleData (fields : List (String × JsValue)) : Option String :=
  match lookupField fields "data" with
  | some d =>
    if truthy d && typeofIsObject d then
      match getProp d "message" with
      | some (.strVal s) => some s
      | _ =>
        match getProp d "reason" with
        | some (.strVal r) => some r
        | _ => none
    else none
  | none => none

/-- Claim C6 rule (d), literally: a `shortMessage` string field. -/
def claimRuleShortMessage (fields : List (String × JsValue)) : Option String :=
  match lookupField fields "shortMessage" with
  | some (.strVal s) => some s
  | _ => none

/-- Claim C6 rule (e), literally: a `message` string field. -/
def claimRuleMessage (fields : List (String × JsValue)) : Option String :=
  match lookupField fields "message" with
  | some (.strVal s) => some s
  | _ => none

/-- Claim C6 rule (f), literally: a nested `error` field extracted
recursively, accepted only if the recursive result is not the sentinel. -/
def claimRuleError (fields : List (String × JsValue)) : Option String :=
  match lookupField fields "error" with
  | some nested =>
    let s := extractRawMessage nested
    if s != "Unknown error" then some s else none
  | none => none

/-- Claim C6 rule (g), literally: a `cause` field under the same
sentinel-rejection rule. -/
def claimRuleCause (fields : List (String × JsValue)) : Option String :=
  match lookupField fields "cause" with
  | some c =>
    let s := extractRawMessage c
    if s != "Unknown error" then some s else none
  | none => none

/-- The fixed priority of claim C6, transcribed literally: the first
applicable of rules (a) to (g). -/
def claimObjectPriority (fields : List (String × JsValue)) : Option String :=
  firstSome
    [claimRuleCode fields, claimRuleReason fields, claimRuleData fields,
     claimRuleShortMessage fields, claimRuleMessage fields,
     claimRuleError fields, claimRuleCause fields]

/-- Amended C6 rule (a): the dictionary message at the code key must
additionally be nonempty (truthy). -/
def amendedRuleCode (fields : List (String × JsValue)) : Option String :=
  match lookupField fields "code" with
  | some (.numVal n) =>
    match dictLookup (intToString n) with
    | some m => if m != "" then some (intToString n) else none
    | none => none
  | some (.strVal s) =>
    match dictLookup s with
    | some m => if m != "" then some s else none
    | none => none
  | _ => none

/-- Amended C6 rule (b): a nonempty `reason` string field. -/
def amendedRuleReason (fields : List (String × JsValue)) : Option String :=
  match lookupField fields "reason" with
  | some (.strVal s) => if s != "" then some s else none
  | _ => none

/-- Amended C6 rule (c): a truthy `data` object's nonempty string `message`
then nonempty string `reason`. -/
def amendedRuleData (fields : List (String × JsValue)) : Option String :=
  match lookupField fields "data" with
  | some d =>
    if truthy d && typeofIsObject d then
      match getProp d "message" with
      | some (.strVal s) =>
        if s != "" then some s
        else
          match getProp d "reason" with
          | some (.strVal r) => if r != "" then some r else none
          | _ => none
      | _ =>
        match getProp d "reason" with
        | some (.strVal r) => if r != "" then some r else none
        | _ => none
    else none
  | none => none

/-- Amended C6 rule (d): a nonempty `shortMessage` string field. -/
def amendedRuleShortMessage (fields : List (String × JsValue)) : Option String :=
  match lookupField fields "shortMessage" with
  | some (.strVal s) => if s != "" then some s else none
  | _ => none

/-- Amended C6 rule (e): a nonempty `message` string field. -/
def amendedRuleMessage (fields : List (String × JsValue)) : Option String :=
  match lookupField fields "message" with
  | some (.strVal s) => if s != "" then some s else none
  | _ => none

/-- Amended C6 rule (f): a truthy nested `error` field extracted
recursively, accepted only if the recursive result is not the sentinel. -/
def amendedRuleError (fields : List (String × JsValue)) : Option String :=
  match lookupField fields "error" with
  | some nested =>
    if truthy nested then
      let s := extractRawMessage nested
      if s != "Unknown error" then some s else none
    else none
  | none => none

/-- Amended C6 rule (g): a truthy `cause` field under the same
sentinel-rejection rule. -/
def amendedRuleCause (fields : List (String × JsValue)) : Option String :=
  match lookupField fields "cause" with
  | some c =>
    if truthy c then
      let s := extractRawMessage c
      if s != "Unknown error" then some s else none
    else none
  | none => none

/-- The fixed priority of the amended claim C6: the first applicable of the
amended rules (a) to (g). -/
def amendedObjectPriority (fields : List (String × JsValue)) : Option String :=
  firstSome
    [amendedRuleCode fields, amendedRuleReason fields, amendedRuleData fields,
     amendedRuleShortMessage fields, amendedRuleMessage fields,
     amendedRuleError fields, amendedRuleCause fields]

/-! ## Proof-infrastructure definitions -/

/-- The characters a normalized string can contain: kept, not uppercase,
and whitespace only as a plain space. -/
def GoodChar (c : Char) : Prop :=
  keptChar c = true ∧ ('A' ≤ c && c ≤ 'Z') = false ∧
    (jsWhitespace c = true → c = ' ')

/-- No two adjacent whitespace characters. -/
def noAdjWs : List Char → Bool
  | [] => true
  | [_] => true
  | a :: b :: r => (!(jsWhitespace a && jsWhitespace b)) && noAdjWs (b :: r)

/-- The list-level body of `normalize`. -/
def normCore (l : List Char) : List Char :=
  (collapseWs (((((jsTrim l).map jsToLower).flatMap nfdChar).filter
      (fun c => !combiningMark c)))).filter keptChar

/-- Whether an AI invocation outcome is a raised error. -/
def isFailureOutcome : AIOutcome → Bool
  | .failure _ => true
  | .success _ => false

/-- The trimmed content of a successful AI invocation outcome (`none` for a
failure); the empty string covers both an absent and an all-whitespace
body. -/
def successContentTrimmed : AIOutcome → Option String
  | .success content =>
    some
      (match content with
       | some s => trimString s
       | none => "")
  | .failure _ => none

/-- The failure condition of claim C1: every attempt the loop can reach
fails, or some reachable attempt returns an empty body. -/
def aiFailurePath (bk : Backend) (retries : Nat) : Prop :=
  (∀ i, i ≤ retries → isFailureOutcome (bk i) = true) ∨
  (∃ k, k ≤ retries ∧ (∀ j, j < k → isFailureOutcome (bk j) = true) ∧
    successContentTrimmed (bk k) = some "")

/-! ## Matcher lemmas -/

theorem jsMapGet_append (l : List LocalErrorEntry) (x : LocalErrorEntry) (n : String) :
    jsMapGet (l ++ [x]) n = if x.keyLower == n then some x else jsMapGet l n := by
  simp [jsMapGet, List.foldl_append]

theorem jsMapGet_mem_some {l : List LocalErrorEntry} {n : String} {e : LocalErrorEntry}
    (h : jsMapGet l n = some e) : e ∈ l ∧ e.keyLower = n := by
  induction l using List.reverseRecOn with
  | nil => simp [jsMapGet] at h
  | append_singleton l x ih =>
    rw [jsMapGet_append] at h
    by_cases hx : (x.keyLower == n) = true
    · rw [if_pos hx] at h
      cases h
      exact ⟨by simp, by simpa using hx⟩
    · rw [if_neg hx] at h
      obtain ⟨hm, hk⟩ := ih h
      exact ⟨List.mem_append_left _ hm, hk⟩

theorem jsMapGet_filter {p : LocalErrorEntry → Bool} {l : List LocalErrorEntry} {n : String}
    (h : ∀ e ∈ l, e.keyLower = n → p e = true) :
    jsMapGet (l.filter p) n = jsMapGet l n := by
  induction l using List.reverseRecOn with
  | nil => rfl
  | append_singleton l x ih =>
    have hrest : ∀ e ∈ l, e.keyLower = n → p e = true := by
      intro e he
      exact h e (List.mem_append_left _ he)
    rw [List.filter_append, jsMapGet_append]
    by_cases hx : (x.keyLower == n) = true
    · have hpx : p x = true :=
        h x (List.mem_append_right _ (List.mem_singleton_self x)) (by simpa using hx)
      simp [List.filter, hpx, jsMapGet_append, hx, ih hrest]
    · by_cases hpx : p x = true
      · simp [List.filter, hpx, jsMapGet_append, hx, ih hrest]
      · simp only [Bool.not_eq_true] at hpx
        simp [List.filter, hpx, hx, ih hrest]

theorem mem_entries_wf {e : LocalErrorEntry} (he : e ∈ LOCAL_ERROR_ENTRIES) :
    e.keyLower = normalize e.key ∧ e.isCode = isCodePattern e.keyLower ∧
      e.isShortToken = shortTokenPattern e.keyLower := by
  simp only [LOCAL_ERROR_ENTRIES, List.mem_map] at he
  obtain ⟨p, _, rfl⟩ := he
  simp [mkLocalErrorEntry]

theorem mem_insertByLenDesc {y e : LocalErrorEntry} {l : List LocalErrorEntry} :
    y ∈ insertByLenDesc e l ↔ y = e ∨ y ∈ l := by
  induction l with
  | nil => simp [insertByLenDesc]
  | cons x xs ih =>
    by_cases hx : x.keyLower.length < e.keyLower.length
    · simp [insertByLenDesc, hx]
    · simp only [insertByLenDesc, if_neg hx, List.mem_cons, ih]
      tauto

theorem mem_foldl_insertByLenDesc {y : LocalErrorEntry} :
    ∀ (l acc : List LocalErrorEntry),
      (y ∈ l.foldl (fun a e => insertByLenDesc e a) acc) ↔ y ∈ acc ∨ y ∈ l := by
  intro l
  induction l with
  | nil => simp
  | cons x xs ih =>
    intro acc
    rw [List.foldl_cons, ih, mem_insertByLenDesc]
    simp
    tauto

theorem mem_sorted_substring {y : LocalErrorEntry} :
    y ∈ SORTED_SUBSTRING_ENTRIES ↔ y ∈ SUBSTRING_ENTRIES := by
  rw [SORTED_SUBSTRING_ENTRIES, mem_foldl_insertByLenDesc]
  simp

theorem pairwise_insertByLenDesc {e : LocalErrorEntry} {l : List LocalErrorEntry}
    (h : l.Pairwise (fun a b => b.keyLower.length ≤ a.keyLower.length)) :
    (insertByLenDesc e l).Pairwise (fun a b => b.keyLower.length ≤ a.keyLower.length) := by
  induction l with
  | nil => simp [insertByLenDesc]
  | cons x xs ih =>
    rw [List.pairwise_cons] at h
    obtain ⟨hx, hxs⟩ := h
    by_cases hlt : x.keyLower.length < e.keyLower.length
    · rw [insertByLenDesc, if_pos hlt, List.pairwise_cons]
      constructor
      · intro y hy
        rcases List.mem_cons.mp hy with rfl | hy
        · omega
        · have := hx y hy
          omega
      · rw [List.pairwise_cons]
        exact ⟨hx, hxs⟩
    · rw [insertByLenDesc, if_neg hlt, List.pairwise_cons]
      constructor
      · intro y hy
        rcases mem_insertByLenDesc.mp hy with rfl | hy
        · omega
        · exact hx y hy
      · exact ih hxs

theorem pairwise_foldl_insertByLenDesc :
    ∀ (l acc : List LocalErrorEntry),
      acc.Pairwise (fun a b => b.keyLower.length ≤ a.keyLower.length) →
      (l.foldl (fun a e => insertByLenDesc e a) acc).Pairwise
        (fun a b => b.keyLower.length ≤ a.keyLower.length) := by
  intro l
  induction l with
  | nil => intro acc h; exact h
  | cons x xs ih =>
    intro acc h
    exact ih _ (pairwise_insertByLenDesc h)

theorem sorted_substring_pairwise :
    SORTED_SUBSTRING_ENTRIES.Pairwise
      (fun a b => b.keyLower.length ≤ a.keyLower.length) :=
  pairwise_foldl_insertByLenDesc _ _ (List.Pairwise.nil)

theorem matchLocal_cases {raw : String} {r : MatchResult}
    (h : matchLocalErrorDetailed raw = some r) :
    ∃ e, e ∈ LOCAL_ERROR_ENTRIES ∧ r = ⟨e.key, e.message⟩ ∧
      (e.keyLower = normalize raw ∨
        (e.isShortToken = false ∧ strIncludes (normalize raw) e.keyLower = true)) := by
  cases hc : jsMapGet CODE_ENTRIES (normalize raw) with
  | some c =>
    simp only [matchLocalErrorDetailed, hc] at h
    cases h
    obtain ⟨hm, hk⟩ := jsMapGet_mem_some hc
    exact ⟨c, (List.mem_filter.mp hm).1, rfl, Or.inl hk⟩
  | none =>
    cases he : jsMapGet LOCAL_ERROR_ENTRIES (normalize raw) with
    | some e =>
      simp only [matchLocalErrorDetailed, hc, he] at h
      cases h
      obtain ⟨hm, hk⟩ := jsMapGet_mem_some he
      exact ⟨e, hm, rfl, Or.inl hk⟩
    | none =>
      cases hf : SORTED_SUBSTRING_ENTRIES.find?
          (fun e => strIncludes (normalize raw) e.keyLower) with
      | some e =>
        simp only [matchLocalErrorDetailed, hc, he, hf] at h
        cases h
        have hmem := mem_sorted_substring.mp (List.mem_of_find?_eq_some hf)
        have hp := List.find?_some hf
        have hflag := (List.mem_filter.mp hmem).2
        refine ⟨e, (List.mem_filter.mp hmem).1, rfl, Or.inr ⟨?_, hp⟩⟩
        cases hst : e.isShortToken
        · rfl
        · rw [hst] at hflag
          simp at hflag
      | none =>
        simp only [matchLocalErrorDetailed, hc, he, hf] at h
        cases h

theorem matchLocal_of_parts {raw : String}
    (h1 : jsMapGet CODE_ENTRIES (normalize raw) = none)
    (h2 : jsMapGet LOCAL_ERROR_ENTRIES (normalize raw) = none)
    (h3 : SUBSTRING_ENTRIES.all
      (fun e => !strIncludes (normalize raw) e.keyLower) = true) :
    matchLocalErrorDetailed raw = none := by
  have hnone : SORTED_SUBSTRING_ENTRIES.find?
      (fun e => strIncludes (normalize raw) e.keyLower) = none := by
    rw [List.find?_eq_none]
    intro x hx
    have := (List.all_eq_true.mp h3) x (mem_sorted_substring.mp hx)
    simp at this
    simp [this]
  simp only [matchLocalErrorDetailed, h1, h2, hnone]

theorem code_lookup_agrees {raw : String} {c : LocalErrorEntry}
    (hc : jsMapGet CODE_ENTRIES (normalize raw) = some c) :
    jsMapGet LOCAL_ERROR_ENTRIES (normalize raw) = some c := by
  obtain ⟨hm, hk⟩ := jsMapGet_mem_some hc
  have hcf := List.mem_filter.mp hm
  have hwf := mem_entries_wf hcf.1
  have hpat : isCodePattern (normalize raw) = true := by
    rw [← hk, ← hwf.2.1]
    simpa using hcf.2
  have hall : ∀ e ∈ LOCAL_ERROR_ENTRIES, e.keyLower = normalize raw →
      (fun e => e.isCode) e = true := by
    intro e he hek
    have hwe := mem_entries_wf he
    simp only
    rw [hwe.2.1, hek, hpat]
  rw [← jsMapGet_filter hall]
  exact hc

/-- Helper for concrete no-match facts: the three cheap conditions of
`matchLocal_of_parts` evaluated by `decide`. -/
theorem noMatch_unknown_error : matchLocalErrorDetailed "Unknown error" = none :=
  matchLocal_of_parts (by decide) (by decide) (by decide)

/-- Helper: the probe string used by concrete fallback scenarios has no
local match. -/
theorem noMatch_probe : matchLocalErrorDetailed "zzzz qqqq" = none :=
  matchLocal_of_parts (by decide) (by decide) (by decide)

/-! ## Character lemmas -/

theorem char_le_iff_toNat (a b : Char) : a ≤ b ↔ a.toNat ≤ b.toNat := Iff.rfl

theorem toNat_ofNat_valid (n : Nat) (h : n < 0xD800) : (Char.ofNat n).toNat = n := by
  have hv : n.isValidChar := Or.inl h
  rw [Char.ofNat, dif_pos hv]
  simp [Char.ofNatAux, Char.toNat, UInt32.toNat, BitVec.toNat_ofNatLt]

theorem not_upper_jsToLower (c : Char) :
    ('A' ≤ jsToLower c && jsToLower c ≤ 'Z') = false := by
  unfold jsToLower
  by_cases h : ('A' ≤ c && c ≤ 'Z') = true
  · rw [if_pos h]
    simp only [Bool.and_eq_true, decide_eq_true_eq] at h
    have hA : ('A').toNat = 65 := rfl
    have hZ : ('Z').toNat = 90 := rfl
    have h1 := (char_le_iff_toNat _ _).mp h.1
    have h2 := (char_le_iff_toNat _ _).mp h.2
    rw [hA] at h1
    rw [hZ] at h2
    have ht : (Char.ofNat (c.toNat + 32)).toNat = c.toNat + 32 :=
      toNat_ofNat_valid _ (by omega)
    simp only [Bool.and_eq_false_iff, decide_eq_false_iff_not]
    right
    intro hle
    have hle2 := (char_le_iff_toNat _ _).mp hle
    rw [ht, hZ] at hle2
    omega
  · rw [if_neg h]
    simpa using h

theorem jsToLower_eq_self {c : Char} (h : ('A' ≤ c && c ≤ 'Z') = false) :
    jsToLower c = c := by
  simp only [jsToLower, h]
  rfl

theorem jsToLower_idem (c : Char) : jsToLower (jsToLower c) = jsToLower c :=
  jsToLower_eq_self (not_upper_jsToLower c)

theorem jsWordChar_toNat {c : Char} (h : jsWordChar c = true) : c.toNat < 0x300 := by
  simp only [jsWordChar, Bool.or_eq_true, Bool.and_eq_true, decide_eq_true_eq,
    beq_iff_eq] at h
  rcases h with ((⟨_, h2⟩ | ⟨_, h2⟩) | ⟨_, h2⟩) | rfl
  · have hn := (char_le_iff_toNat _ _).mp h2
    have hz : ('z').toNat = 122 := rfl
    omega
  · have hn := (char_le_iff_toNat _ _).mp h2
    have hz : ('Z').toNat = 90 := rfl
    omega
  · have hn := (char_le_iff_toNat _ _).mp h2
    have hz : ('9').toNat = 57 := rfl
    omega
  · decide

theorem jsWhitespace_not_mark {c : Char} (h : jsWhitespace c = true) :
    combiningMark c = false := by
  simp only [jsWhitespace, Bool.or_eq_true, Bool.and_eq_true, decide_eq_true_eq,
    beq_iff_eq, Nat.beq_eq_true_eq] at h
  simp only [combiningMark, Bool.and_eq_false_iff, decide_eq_false_iff_not]
  omega

theorem keptSeparator_toNat {c : Char} (h : keptSeparator c = true) :
    c.toNat < 0x300 := by
  simp only [keptSeparator, Bool.or_eq_true, beq_iff_eq] at h
  rcases h with ((rfl | rfl) | rfl) | rfl
  all_goals decide

theorem keptChar_not_mark {c : Char} (h : keptChar c = true) :
    combiningMark c = false := by
  simp only [keptChar, Bool.or_eq_true] at h
  rcases h with (hw | hs) | hsep
  · have := jsWordChar_toNat hw
    simp only [combiningMark, Bool.and_eq_false_iff, decide_eq_false_iff_not]
    left
    omega
  · exact jsWhitespace_not_mark hs
  · have := keptSeparator_toNat hsep
    simp only [combiningMark, Bool.and_eq_false_iff, decide_eq_false_iff_not]
    left
    omega

theorem space_good : jsWhitespace ' ' = true := by decide

/-! ## Collapse lemmas -/

theorem collapse_step_adj {a b : Char} {r : List Char}
    (hab : (jsWhitespace a && jsWhitespace b) = true) :
    collapseWs (a :: b :: r) = collapseWs (b :: r) := by
  simp [collapseWs, hab]

theorem collapse_step_notadj {a b : Char} {r : List Char}
    (hab : (jsWhitespace a && jsWhitespace b) = false) :
    collapseWs (a :: b :: r) =
      (if jsWhitespace a then ' ' else a) :: collapseWs (b :: r) := by
  simp [collapseWs, hab]

theorem collapse_cons_nonws {a : Char} {r : List Char} (h : jsWhitespace a = false) :
    collapseWs (a :: r) = a :: collapseWs r := by
  cases r with
  | nil => simp [collapseWs, h]
  | cons b r' =>
    rw [collapse_step_notadj (by simp [h])]
    simp [h]

theorem collapse_ne_nil {l : List Char} (h : l ≠ []) : collapseWs l ≠ [] := by
  induction l with
  | nil => exact absurd rfl h
  | cons a r ih =>
    cases r with
    | nil =>
      by_cases ha : jsWhitespace a = true <;> simp [collapseWs, ha]
    | cons b r' =>
      cases hab : (jsWhitespace a && jsWhitespace b)
      · rw [collapse_step_notadj hab]
        simp
      · rw [collapse_step_adj hab]
        exact ih (by simp)

theorem collapse_mem {c : Char} : ∀ {l : List Char}, c ∈ collapseWs l → c = ' ' ∨ c ∈ l := by
  intro l
  induction l with
  | nil => intro h; simp [collapseWs] at h
  | cons a r ih =>
    cases r with
    | nil =>
      by_cases ha : jsWhitespace a = true <;> intro h <;> simp [collapseWs, ha] at h
      · left; exact h
      · right; simp [h]
    | cons b r' =>
      cases hab : (jsWhitespace a && jsWhitespace b)
      · intro h
        rw [collapse_step_notadj hab] at h
        rcases List.mem_cons.mp h with rfl | h
        · by_cases ha : jsWhitespace a = true
          · left; simp [ha]
          · right
            simp only [Bool.not_eq_true] at ha
            simp [ha]
        · rcases ih h with h | h
          · left; exact h
          · right; simp [h]
      · intro h
        rw [collapse_step_adj hab] at h
        rcases ih h with h | h
        · left; exact h
        · right; simp [h]

theorem collapse_ws_space {c : Char} :
    ∀ {l : List Char}, c ∈ collapseWs l → jsWhitespace c = true → c = ' ' := by
  intro l
  induction l with
  | nil => intro h; simp [collapseWs] at h
  | cons a r ih =>
    cases r with
    | nil =>
      by_cases ha : jsWhitespace a = true <;> intro h hw <;> simp [collapseWs, ha] at h
      · exact h
      · rw [h] at hw
        rw [hw] at ha
        exact absurd rfl ha
    | cons b r' =>
      cases hab : (jsWhitespace a && jsWhitespace b)
      · intro h hw
        rw [collapse_step_notadj hab] at h
        rcases List.mem_cons.mp h with rfl | h
        · by_cases ha : jsWhitespace a = true
          · simp [ha]
          · rw [if_neg ha] at hw
            exact absurd hw ha
        · exact ih h hw
      · intro h hw
        rw [collapse_step_adj hab] at h
        exact ih h hw

theorem noAdjWs_cons (x : Char) (ys : List Char) :
    noAdjWs (x :: ys) =
      ((ys.head?.all fun y => !(jsWhitespace x && jsWhitespace y)) && noAdjWs ys) := by
  cases ys with
  | nil => simp [noAdjWs]
  | cons y t => simp [noAdjWs]

theorem collapse_head_nonws {b : Char} {r : List Char} (hb : jsWhitespace b = false) :
    (collapseWs (b :: r)).head? = some b := by
  rw [collapse_cons_nonws hb]
  rfl

theorem collapse_noAdjWs : ∀ (l : List Char), noAdjWs (collapseWs l) = true := by
  intro l
  induction l with
  | nil => simp [collapseWs, noAdjWs]
  | cons a r ih =>
    cases r with
    | nil =>
      by_cases ha : jsWhitespace a = true <;> simp [collapseWs, ha, noAdjWs]
    | cons b r' =>
      cases hab : (jsWhitespace a && jsWhitespace b)
      · rw [collapse_step_notadj hab]
        rw [noAdjWs_cons]
        simp only [Bool.and_eq_true]
        refine ⟨?_, ih⟩
        cases hb : jsWhitespace b
        · rw [collapse_head_nonws hb]
          simp [hb]
        · have ha : jsWhitespace a = false := by
            cases hha : jsWhitespace a
            · rfl
            · rw [hha, hb] at hab
              simp at hab
          rw [if_neg (by simp [ha])]
          cases hcol : (collapseWs (b :: r')).head? with
          | none => simp
          | some y => simp [ha]
      · rw [collapse_step_adj hab]
        exact ih

theorem collapse_id : ∀ {l : List Char}, noAdjWs l = true →
    (∀ c ∈ l, jsWhitespace c = true → c = ' ') → collapseWs l = l := by
  intro l
  induction l with
  | nil => intro _ _; rfl
  | cons a r ih =>
    cases r with
    | nil =>
      intro _ hc
      by_cases ha : jsWhitespace a = true
      · have := hc a (by simp) ha
        simp [collapseWs, ha, this]
      · simp [collapseWs, ha]
    | cons b r' =>
      intro hadj hc
      rw [noAdjWs_cons] at hadj
      simp only [Bool.and_eq_true] at hadj
      have hab : (jsWhitespace a && jsWhitespace b) = false := by
        have h1 := hadj.1
        simp only [List.head?_cons, Option.all_some] at h1
        simp only [Bool.and_eq_false_iff]
        simpa [Bool.not_eq_true] using h1
      rw [collapse_step_notadj hab]
      have hrest := ih hadj.2 (fun c hcm hcw => hc c (by simp [hcm]) hcw)
      rw [hrest]
      by_cases ha : jsWhitespace a = true
      · have := hc a (by simp) ha
        rw [if_pos ha, this]
      · rw [if_neg ha]

/-! ## Boundary lemmas -/

theorem collapse_getLast_nonws :
    ∀ {m : List Char}, (m.getLast?.all fun a => !jsWhitespace a) = true →
      ((collapseWs m).getLast?.all fun a => !jsWhitespace a) = true := by
  intro m
  induction m with
  | nil => intro _; rfl
  | cons a r ih =>
    cases r with
    | nil =>
      intro h
      simp only [List.getLast?_singleton, Option.all_some] at h
      have ha : jsWhitespace a = false := by simpa using h
      simp [collapseWs, ha]
    | cons b r' =>
      intro h
      rw [List.getLast?_cons_cons] at h
      cases hab : (jsWhitespace a && jsWhitespace b)
      · rw [collapse_step_notadj hab]
        have hne := collapse_ne_nil (l := b :: r') (by simp)
        cases hcol : collapseWs (b :: r') with
        | nil => exact absurd hcol hne
        | cons y ys =>
          rw [List.getLast?_cons_cons]
          rw [← hcol]
          exact ih h
      · rw [collapse_step_adj hab]
        exact ih h

theorem head_dropWhile_not (p : Char → Bool) :
    ∀ (l : List Char), ((l.dropWhile p).head?.all fun a => !p a) = true := by
  intro l
  induction l with
  | nil => rfl
  | cons a t ih =>
    cases hp : p a
    · simp [List.dropWhile_cons, hp]
    · simpa [List.dropWhile_cons, hp] using ih

theorem getLast_dropWhile (p : Char → Bool) :
    ∀ (l : List Char), l.dropWhile p ≠ [] → (l.dropWhile p).getLast? = l.getLast? := by
  intro l
  induction l with
  | nil => intro h; exact absurd rfl h
  | cons a t ih =>
    intro h
    cases hp : p a
    · simp [List.dropWhile_cons, hp]
    · rw [List.dropWhile_cons, if_pos (by simp [hp])] at h ⊢
      cases t with
      | nil => exact absurd rfl h
      | cons b t' =>
        rw [ih h, List.getLast?_cons_cons]

theorem jsTrim_head_not_ws (l : List Char) :
    ((jsTrim l).head?.all fun a => !jsWhitespace a) = true := by
  unfold jsTrim
  rw [List.head?_reverse]
  cases hy : (l.dropWhile jsWhitespace).reverse.dropWhile jsWhitespace with
  | nil => rfl
  | cons y ys =>
    rw [← hy]
    rw [getLast_dropWhile _ _ (by rw [hy]; simp)]
    rw [List.getLast?_reverse]
    exact head_dropWhile_not _ _

theorem jsTrim_last_not_ws (l : List Char) :
    ((jsTrim l).getLast?.all fun a => !jsWhitespace a) = true := by
  unfold jsTrim
  rw [List.getLast?_reverse]
  exact head_dropWhile_not _ _

theorem dropWhile_eq_self_of {p : Char → Bool} {l : List Char}
    (h : (l.head?.all fun a => !p a) = true) : l.dropWhile p = l := by
  cases l with
  | nil => rfl
  | cons a t =>
    simp only [List.head?_cons, Option.all_some] at h
    simp [List.dropWhile_cons, show p a = false by simpa using h]

theorem jsTrim_eq_self {l : List Char}
    (h1 : (l.head?.all fun a => !jsWhitespace a) = true)
    (h2 : (l.getLast?.all fun a => !jsWhitespace a) = true) : jsTrim l = l := by
  unfold jsTrim
  rw [dropWhile_eq_self_of h1]
  rw [dropWhile_eq_self_of (by rw [List.head?_reverse]; exact h2)]
  exact List.reverse_reverse l

/-! ## Pipeline lemmas -/

theorem flatMap_nfd (l : List Char) : l.flatMap nfdChar = l := by
  induction l with
  | nil => rfl
  | cons a t ih => simp [nfdChar, ih]

theorem map_eq_self_of {f : Char → Char} {l : List Char}
    (h : ∀ c ∈ l, f c = c) : l.map f = l := by
  induction l with
  | nil => rfl
  | cons a t ih =>
    rw [List.map_cons, h a (by simp), ih (fun c hc => h c (by simp [hc]))]

theorem mem_jsTrim {c : Char} {l : List Char} (h : c ∈ jsTrim l) : c ∈ l := by
  unfold jsTrim at h
  rw [List.mem_reverse] at h
  have h2 := (List.dropWhile_sublist _).mem h
  rw [List.mem_reverse] at h2
  exact (List.dropWhile_sublist _).mem h2

theorem normalize_eq_normCore (s : String) :
    normalize s = if s = "" then "" else String.mk (normCore s.toList) := rfl

theorem space_goodChar : GoodChar ' ' := by
  refine ⟨by decide, by decide, fun _ => rfl⟩

theorem normCore_good {l : List Char} : ∀ c ∈ normCore l, GoodChar c := by
  intro c hc
  unfold normCore at hc
  rw [List.mem_filter] at hc
  obtain ⟨hcol, hkept⟩ := hc
  refine ⟨hkept, ?_, fun hw => collapse_ws_space hcol hw⟩
  rcases collapse_mem hcol with rfl | hmem
  · decide
  · rw [List.mem_filter] at hmem
    rw [flatMap_nfd] at hmem
    obtain ⟨hmap, _⟩ := hmem.imp id id
    rw [List.mem_map] at hmap
    obtain ⟨a, _, rfl⟩ := hmap
    exact not_upper_jsToLower a

theorem normCore_of_good {l : List Char} (h : ∀ c ∈ l, GoodChar c) :
    normCore l = collapseWs (jsTrim l) := by
  unfold normCore
  rw [map_eq_self_of (fun c hc => jsToLower_eq_self (h c (mem_jsTrim hc)).2.1)]
  rw [flatMap_nfd]
  rw [show (jsTrim l).filter (fun c => !combiningMark c) = jsTrim l from
    List.filter_eq_self.mpr (fun c hc => by
      simp [keptChar_not_mark (h c (mem_jsTrim hc)).1])]
  refine List.filter_eq_self.mpr (fun c hc => ?_)
  rcases collapse_mem hc with rfl | hmem
  · decide
  · exact (h c (mem_jsTrim hmem)).1

theorem collapse_trim_fixed {l : List Char} :
    collapseWs (jsTrim (collapseWs (jsTrim l))) = collapseWs (jsTrim l) := by
  have hhead : ((collapseWs (jsTrim l)).head?.all fun a => !jsWhitespace a) = true := by
    cases hw : jsTrim l with
    | nil => rfl
    | cons a r =>
      have ha := jsTrim_head_not_ws l
      rw [hw] at ha
      simp only [List.head?_cons, Option.all_some] at ha
      rw [collapse_head_nonws (by simpa using ha)]
      simpa using ha
  have hlast : ((collapseWs (jsTrim l)).getLast?.all fun a => !jsWhitespace a) = true :=
    collapse_getLast_nonws (jsTrim_last_not_ws l)
  rw [jsTrim_eq_self hhead hlast]
  exact collapse_id (collapse_noAdjWs _) (fun c hc hw => collapse_ws_space hc hw)

theorem toList_mk (l : List Char) : (String.mk l).toList = l := rfl

theorem normalize_chars_good (s : String) : ∀ c ∈ (normalize s).toList, GoodChar c := by
  rw [normalize_eq_normCore]
  by_cases h : s = ""
  · rw [if_pos h]
    intro c hc
    simp at hc
  · rw [if_neg h]
    rw [toList_mk]
    exact normCore_good

theorem normalize_of_good {u : String} (h : ∀ c ∈ u.toList, GoodChar c) :
    normalize u = String.mk (collapseWs (jsTrim u.toList)) := by
  rw [normalize_eq_normCore]
  by_cases hu : u = ""
  · rw [if_pos hu, hu]
    rfl
  · rw [if_neg hu, normCore_of_good h]

theorem normalize_fixed_on_good {u : String} (h : ∀ c ∈ u.toList, GoodChar c) :
    normalize (normalize u) = normalize u := by
  have h1 : normalize u = String.mk (collapseWs (jsTrim u.toList)) := normalize_of_good h
  have hgood2 : ∀ c ∈ (normalize u).toList, GoodChar c := normalize_chars_good u
  rw [h1] at hgood2 ⊢
  rw [normalize_of_good hgood2]
  rw [toList_mk]
  rw [collapse_trim_fixed]

theorem normalize_double_idem (s : String) :
    normalize (normalize (normalize s)) = normalize (normalize s) :=
  normalize_fixed_on_good (normalize_chars_good s)

/-! ## AI retry-loop lemmas -/

theorem askAILoop_exit (bk : Backend) (fb : String) (r a : Nat) (h : a > r) :
    askAILoop bk fb r a = ⟨fb, 0, []⟩ := by
  unfold askAILoop
  rw [if_pos h]

theorem askAILoop_fail_aux (bk : Backend) (fb : String) (r : Nat)
    (h : ∀ i, i ≤ r → isFailureOutcome (bk i) = true) :
    ∀ k a, r + 1 - a ≤ k → (askAILoop bk fb r a).message = fb := by
  intro k
  induction k with
  | zero =>
    intro a ha
    rw [askAILoop_exit bk fb r a (by omega)]
  | succ k ih =>
    intro a ha
    by_cases hgt : a > r
    · rw [askAILoop_exit bk fb r a hgt]
    · have hle : a ≤ r := by omega
      have hf := h a hle
      cases hbk : bk a with
      | success c =>
        rw [hbk] at hf
        simp [isFailureOutcome] at hf
      | failure err =>
        unfold askAILoop
        rw [if_neg hgt, hbk]
        dsimp only
        by_cases hrl : (isRateLimitError err && !(a == r)) = true
        · rw [if_pos hrl]
          exact ih (a + 1) (by omega)
        · rw [if_neg hrl]
          by_cases har : (a == r) = true
          · rw [if_pos har]
          · rw [if_neg har]
            exact ih (a + 1) (by omega)

theorem askAILoop_empty_aux (bk : Backend) (fb : String) (r : Nat) {k : Nat}
    (hk : k ≤ r)
    (hfail : ∀ j, j < k → isFailureOutcome (bk j) = true)
    (hsucc : successContentTrimmed (bk k) = some "") :
    ∀ m a, a ≤ k → r + 1 - a ≤ m → (askAILoop bk fb r a).message = fb := by
  intro m
  induction m with
  | zero =>
    intro a hak ha
    rw [askAILoop_exit bk fb r a (by omega)]
  | succ m ih =>
    intro a hak ha
    by_cases hek : a = k
    · subst hek
      cases hbk : bk a with
      | failure err =>
        rw [hbk] at hsucc
        simp [successContentTrimmed] at hsucc
      | success c =>
        rw [hbk] at hsucc
        simp only [successContentTrimmed, Option.some_inj] at hsucc
        unfold askAILoop
        rw [if_neg (by omega), hbk]
        dsimp only
        simp [hsucc]
    · have halt : a < k := by omega
      have hf := hfail a halt
      cases hbk : bk a with
      | success c =>
        rw [hbk] at hf
        simp [isFailureOutcome] at hf
      | failure err =>
        unfold askAILoop
        rw [if_neg (by omega), hbk]
        dsimp only
        by_cases hrl : (isRateLimitError err && !(a == r)) = true
        · rw [if_pos hrl]
          exact ih (a + 1) (by omega) (by omega)
        · rw [if_neg hrl]
          by_cases har : (a == r) = true
          · rw [if_pos har]
          · rw [if_neg har]
            exact ih (a + 1) (by omega) (by omega)

theorem askAILoop_fallback (bk : Backend) (fb : String) (r : Nat)
    (h : aiFailurePath bk r) : (askAILoop bk fb r 0).message = fb := by
  rcases h with h | ⟨k, hk, hfail, hsucc⟩
  · exact askAILoop_fail_aux bk fb r h (r + 1) 0 (by omega)
  · exact askAILoop_empty_aux bk fb r hk hfail hsucc (r + 1) 0 (by omega) (by omega)

/-! ## Facade lemmas -/

theorem humanizeDetailed_ai_branch (bk : Backend) (mdl fb : String)
    (v : JsValue) (ctx : Option SwapContext)
    (hm : matchLocalErrorDetailed (extractRawMessage v) = none) :
    Humanizer.humanizeDetailed ⟨some bk, mdl, fb⟩ v ctx =
      ⟨(askAILoop bk fb 2 0).message, .ai, none, extractRawMessage v⟩ := by
  simp only [Humanizer.humanizeDetailed, Humanizer.askAI, hm]

theorem humanizeDetailed_no_ai (mdl fb : String)
    (v : JsValue) (ctx : Option SwapContext)
    (hm : matchLocalErrorDetailed (extractRawMessage v) = none) :
    Humanizer.humanizeDetailed ⟨none, mdl, fb⟩ v ctx =
      ⟨fb, .fallback, none, extractRawMessage v⟩ := by
  simp only [Humanizer.humanizeDetailed, hm]

/-! ## Claim theorems -/

/-- C1, counterexample to the claim as stated: with an AI backend
configured whose every invocation raises, and an unmatched input, the
result of `humanizeDetailed` carries the configured fallback message but is
tagged `source = "ai"`, not `source = "fallback"`. -/
theorem C1_counterexample :
    Humanizer.humanizeDetailed
        ⟨some (fun _ => .failure (.errorVal "boom" none)), "gpt-4o-mini", "FB"⟩
        (.strVal "zzzz qqqq") none =
      ⟨"FB", HumanizeSource.ai, none, "zzzz qqqq"⟩ ∧
    HumanizeSource.ai ≠ HumanizeSource.fallback := by
  constructor
  · have hraw : extractRawMessage (.strVal "zzzz qqqq") = "zzzz qqqq" := by
      simp [extractRawMessage]
    have hfb : (askAILoop (fun _ => AIOutcome.failure (.errorVal "boom" none))
        "FB" 2 0).message = "FB" :=
      askAILoop_fallback _ _ _ (Or.inl (fun i _ => rfl))
    rw [humanizeDetailed_ai_branch (fun _ => AIOutcome.failure (.errorVal "boom" none))
      "gpt-4o-mini" "FB" (.strVal "zzzz qqqq") none (by rw [hraw]; exact noMatch_probe)]
    rw [hfb, hraw]
  · simp

/-- C1, amended: for every error input with no local match and an AI
backend configured, if the backend fails on every reachable attempt or a
reachable attempt returns an empty body, the returned `HumanizedResult`
carries the configured static fallback message but is tagged
`source = "ai"` (the tag `source = "fallback"` is used only when no backend
is configured or on an internal exception). -/
theorem C1_theorem (bk : Backend) (mdl fb : String) (v : JsValue)
    (ctx : Option SwapContext)
    (hm : matchLocalErrorDetailed (extractRawMessage v) = none)
    (hf : aiFailurePath bk 2) :
    Humanizer.humanizeDetailed ⟨some bk, mdl, fb⟩ v ctx =
      ⟨fb, HumanizeSource.ai, none, extractRawMessage v⟩ := by
  rw [humanizeDetailed_ai_branch bk mdl fb v ctx hm]
  rw [askAILoop_fallback bk fb 2 hf]

/-- C1, witness: the amended theorem applied to a concrete always-failing
backend and a concrete unmatched input. -/
theorem C1_witness :
    Humanizer.humanizeDetailed
        ⟨some (fun _ => .failure (.errorVal "overloaded" none)), "m", "F!"⟩
        (.strVal "zzzz qqqq") none =
      ⟨"F!", HumanizeSource.ai, none, extractRawMessage (.strVal "zzzz qqqq")⟩ :=
  C1_theorem (fun _ => .failure (.errorVal "overloaded" none)) "m" "F!"
    (.strVal "zzzz qqqq") none
    (by rw [show extractRawMessage (.strVal "zzzz qqqq") = "zzzz qqqq" by
          simp [extractRawMessage]]
        exact noMatch_probe)
    (Or.inl (fun i _ => rfl))

/-- C2: for every raw message, `matchLocalErrorDetailed` agrees with the
claim's algorithm (normalize; one exact lookup serving numeric codes and
phrases alike; then the first substring hit scanning the precomputed
candidate list; else the absent value `none` — it cannot raise, being a
total function), and the precomputed candidate list is ordered by
descending normalized-key length. -/
theorem C2_theorem :
    (∀ raw, matchLocalErrorDetailed raw = specMatchLocal raw) ∧
      SORTED_SUBSTRING_ENTRIES.Pairwise
        (fun a b => b.keyLower.length ≤ a.keyLower.length) := by
  constructor
  · intro raw
    cases hc : jsMapGet CODE_ENTRIES (normalize raw) with
    | none => simp only [matchLocalErrorDetailed, specMatchLocal, hc]
    | some c =>
      simp only [matchLocalErrorDetailed, specMatchLocal, hc,
        code_lookup_agrees hc]
  · exact sorted_substring_pairwise

/-- C3, counterexample to idempotence as stated: `normalize "a !"` is
`"a "` (the special character is removed after whitespace collapsing,
leaving a trailing space), and a second application trims that space. -/
theorem C3_counterexample :
    normalize "a !" = "a " ∧ normalize (normalize "a !") = "a" ∧
      normalize (normalize "a !") ≠ normalize "a !" := by
  refine ⟨by decide, by decide, by decide⟩

/-- C3, amended: `normalize` is not idempotent, but its image stabilizes
after the second application: `normalize (normalize (normalize s)) =
normalize (normalize s)` for every string `s`. -/
theorem C3_theorem (s : String) :
    normalize (normalize (normalize s)) = normalize (normalize s) :=
  normalize_double_idem s

/-- C4: the raw message `"UniswapV2Router: EXPIRED"` resolves exactly to
the entry keyed `"UniswapV2Router: EXPIRED"` (never to the bare
`"EXPIRED"` entry), and the raw message `"4001"` resolves exactly to the
entry keyed `"4001"`. -/
theorem C4_theorem :
    matchLocalErrorDetailed "UniswapV2Router: EXPIRED" =
      some ⟨"UniswapV2Router: EXPIRED", "Transaction expired. Please try again."⟩ ∧
    (matchLocalErrorDetailed "UniswapV2Router: EXPIRED").map MatchResult.matchedKey ≠
      some "EXPIRED" ∧
    matchLocalErrorDetailed "4001" =
      some ⟨"4001", "You declined the request in your wallet."⟩ ∧
    (matchLocalErrorDetailed "4001").map MatchResult.matchedKey = some "4001" := by
  refine ⟨by decide, by decide, by decide, by decide⟩

/-- C5: a `ShortAmbiguous` dictionary entry is returned only on exact
normalized equality — whenever `matchLocalErrorDetailed` returns a
short-token entry's key and message, the normalized raw message equals that
entry's normalized key; mere containment never selects it. -/
theorem C5_theorem (e : LocalErrorEntry) (he : e ∈ LOCAL_ERROR_ENTRIES)
    (hshort : e.isShortToken = true) (raw : String)
    (hmatch : matchLocalErrorDetailed raw = some ⟨e.key, e.message⟩) :
    normalize raw = e.keyLower := by
  obtain ⟨f, hf, hr, hcase⟩ := matchLocal_cases hmatch
  have hkey : f.key = e.key := by
    have := congrArg MatchResult.matchedKey hr
    simpa using this.symm
  have hwf := mem_entries_wf he
  have hwf2 := mem_entries_wf hf
  have hkl : f.keyLower = e.keyLower := by
    rw [hwf.1, hwf2.1, hkey]
  have hst2 : f.isShortToken = true := by
    rw [hwf2.2.2, hkl]
    rw [hwf.2.2] at hshort
    exact hshort
  rcases hcase with hk | ⟨hnot, _⟩
  · rw [← hk, hkl]
  · rw [hst2] at hnot
    cases hnot

/-- C5, witness: the theorem applied to the `"MEV"` entry and the raw
message `"mev"`. -/
theorem C5_witness :
    normalize "mev" =
      (mkLocalErrorEntry "MEV"
        "MEV protection triggered. Try using a private RPC.").keyLower :=
  C5_theorem _
    (List.mem_map_of_mem _
      (by decide :
        ("MEV", "MEV protection triggered. Try using a private RPC.") ∈
          LOCAL_ERROR_MAP))
    (by decide) "mev" (by decide)

/-! ## Object-branch equivalence -/

theorem objCodeCheck_eq_amended (fields : List (String × JsValue)) :
    objCodeCheck fields = amendedRuleCode fields := rfl

theorem objReasonCheck_eq_amended (fields : List (String × JsValue)) :
    objReasonCheck fields = amendedRuleReason fields := rfl

theorem objDataCheck_eq_amended (fields : List (String × JsValue)) :
    objDataCheck fields = amendedRuleData fields := rfl

theorem objShortMessageCheck_eq_amended (fields : List (String × JsValue)) :
    objShortMessageCheck fields = amendedRuleShortMessage fields := rfl

theorem objMessageCheck_eq_amended (fields : List (String × JsValue)) :
    objMessageCheck fields = amendedRuleMessage fields := rfl

theorem objCauseCheck_eq_amended (fields : List (String × JsValue)) :
    objCauseCheck fields = amendedRuleCause fields := by
  unfold objCauseCheck amendedRuleCause
  split
  next c h => rw [h]
  next h => rw [h]

theorem extractFromObject_eq_amended (fields : List (String × JsValue)) :
    extractFromObject fields = amendedObjectPriority fields := by
  unfold extractFromObject
  rw [objCodeCheck_eq_amended, objReasonCheck_eq_amended, objDataCheck_eq_amended,
    objShortMessageCheck_eq_amended, objMessageCheck_eq_amended]
  unfold amendedObjectPriority
  cases h1 : amendedRuleCode fields with
  | some r => simp [firstSome, h1]
  | none =>
  cases h2 : amendedRuleReason fields with
  | some r => simp [firstSome, h1, h2]
  | none =>
  cases h3 : amendedRuleData fields with
  | some r => simp [firstSome, h1, h2, h3]
  | none =>
  cases h4 : amendedRuleShortMessage fields with
  | some r => simp [firstSome, h1, h2, h3, h4]
  | none =>
  cases h5 : amendedRuleMessage fields with
  | some r => simp [firstSome, h1, h2, h3, h4, h5]
  | none =>
  simp only [h1, h2, h3, h4, h5, firstSome]
  rw [objCauseCheck_eq_amended]
  split
  · next nested hl =>
    cases ht : truthy nested with
    | true =>
      cases hs : (extractRawMessage nested != "Unknown error") with
      | true =>
        have he : amendedRuleError fields = some (extractRawMessage nested) := by
          simp [amendedRuleError, hl, ht, hs]
        simp [firstSome, he, ht, hs]
      | false =>
        have he : amendedRuleError fields = none := by
          simp [amendedRuleError, hl, ht, hs]
        cases h7 : amendedRuleCause fields <;> simp [firstSome, he, h7, ht, hs]
    | false =>
      have he : amendedRuleError fields = none := by simp [amendedRuleError, hl, ht]
      cases h7 : amendedRuleCause fields <;> simp [firstSome, he, h7]
  · next hl =>
    have he : amendedRuleError fields = none := by simp [amendedRuleError, hl]
    cases h7 : amendedRuleCause fields <;> simp [firstSome, he, h7]

/-- C6, counterexample to the claim as stated: for the plain object
`{error: 0}`, rule (f) as written applies (the field exists and its
recursive extraction `"0"` is not the sentinel), yet the code skips the
falsy nested `error` field and serializes the whole object instead. -/
theorem C6_counterexample :
    claimObjectPriority [("error", JsValue.numVal 0)] = some "0" ∧
    extractRawMessage (.objVal [("error", JsValue.numVal 0)]) = "\x7b\"error\":0\x7d" ∧
    extractRawMessage (.objVal [("error", JsValue.numVal 0)]) ≠ "0" := by
  have h0 : intToString 0 = "0" := rfl
  have hx : extractRawMessage (JsValue.numVal 0) = "0" := by
    simp [extractRawMessage, stringifyFallback, jsonStringify, h0]
  refine ⟨?_, ?_, ?_⟩
  · simp [claimObjectPriority, firstSome, claimRuleCode, claimRuleReason,
      claimRuleData, claimRuleShortMessage, claimRuleMessage, claimRuleError,
      lookupField, hx]
  · simp [extractRawMessage, extractFromObject, objCodeCheck, objReasonCheck,
      objDataCheck, objShortMessageCheck, objMessageCheck, objCauseCheck,
      lookupField, truthy, stringifyFallback, jsonStringify, jsonStringifyFields,
      jsonQuote, jsonQuoteChar, h0]
    rfl
  · simp [extractRawMessage, extractFromObject, objCodeCheck, objReasonCheck,
      objDataCheck, objShortMessageCheck, objMessageCheck, objCauseCheck,
      lookupField, truthy, stringifyFallback, jsonStringify, jsonStringifyFields,
      jsonQuote, jsonQuoteChar, h0]
    decide

/-- C6, amended: for every plain object, `extractRawMessage` returns the
first applicable of the rules (a)–(g), where the string fields of
(b)–(e) apply only when nonempty, the dictionary message in (a) must be
nonempty, and the nested `error`/`cause` fields of (f)/(g) apply only when
truthy. -/
theorem C6_theorem (fields : List (String × JsValue)) (r : String)
    (h : amendedObjectPriority fields = some r) :
    extractRawMessage (.objVal fields) = r := by
  rw [← extractFromObject_eq_amended] at h
  simp [extractRawMessage, h]

/-- C6, witness: the amended theorem applied to a concrete ethers-style
object with a `reason` field. -/
theorem C6_witness :
    extractRawMessage (.objVal [("reason", .strVal "INSUFFICIENT_FUNDS")]) =
      "INSUFFICIENT_FUNDS" :=
  C6_theorem [("reason", .strVal "INSUFFICIENT_FUNDS")] "INSUFFICIENT_FUNDS"
    (by simp [amendedObjectPriority, firstSome, amendedRuleCode, amendedRuleReason,
      lookupField])

/-- C7: `extractRawMessage` is total in the model — `null` and `undefined`
return the sentinel `"Unknown error"`; every input returns some string; and
whenever the plain-object branch finds no applicable field and
`JSON.stringify` raises (BigInt in the model, standing for the cyclic
structures of full JavaScript), the caught exception degrades to the
sentinel instead of propagating. -/
theorem C7_theorem :
    extractRawMessage .null = "Unknown error" ∧
    extractRawMessage .undef = "Unknown error" ∧
    (∀ v : JsValue, ∃ s : String, extractRawMessage v = s) ∧
    (∀ fields, extractFromObject fields = none →
      jsonStringify (.objVal fields) = .error () →
      extractRawMessage (.objVal fields) = "Unknown error") := by
  refine ⟨by simp [extractRawMessage], by simp [extractRawMessage],
    fun v => ⟨_, rfl⟩, ?_⟩
  intro fields h1 h2
  simp [extractRawMessage, h1, stringifyFallback, h2]

/-- C7, witness: the serialization-failure part applied to a concrete
object containing a BigInt. -/
theorem C7_witness :
    extractRawMessage (.objVal [("loop", .bigIntVal 0)]) = "Unknown error" :=
  C7_theorem.2.2.2 [("loop", .bigIntVal 0)]
    (by simp [extractFromObject, objCodeCheck, objReasonCheck, objDataCheck,
      objShortMessageCheck, objMessageCheck, objCauseCheck, lookupField])
    (by simp [jsonStringify, jsonStringifyFields])

/-- C8: the public entry points return normally for every modelled input
(they are total functions into strings or results), and on an unmatched raw
message with no AI configured they return exactly the configured fallback:
`humanizeError` the fallback string, `humanizeErrorDetailed` and the
class's `humanizeDetailed` the fallback tagged `source = "fallback"`,
`humanizeErrorLocal` the absent value. -/
theorem C8_theorem :
    (∀ (v : JsValue) (fb : String),
      matchLocalErrorDetailed (extractRawMessage v) = none →
      humanizeError v fb = fb ∧
      humanizeErrorDetailed v fb = ⟨fb, .fallback, none, extractRawMessage v⟩ ∧
      humanizeErrorLocal v = none) ∧
    (∀ (v : JsValue) (ctx : Option SwapContext) (mdl fb : String),
      matchLocalErrorDetailed (extractRawMessage v) = none →
      Humanizer.humanizeDetailed ⟨none, mdl, fb⟩ v ctx =
        ⟨fb, .fallback, none, extractRawMessage v⟩ ∧
      Humanizer.humanize ⟨none, mdl, fb⟩ v ctx = fb) := by
  constructor
  · intro v fb hm
    refine ⟨?_, ?_, ?_⟩
    · simp [humanizeError, humanizeErrorLocal, hm]
    · simp [humanizeErrorDetailed, hm]
    · simp [humanizeErrorLocal, hm]
  · intro v ctx mdl fb hm
    refine ⟨humanizeDetailed_no_ai mdl fb v ctx hm, ?_⟩
    simp [Humanizer.humanize, humanizeDetailed_no_ai mdl fb v ctx hm]

/-- C8, witness: the theorem applied to the `null` input (whose extraction
is the unmatched sentinel) and to a serialization-failing object standing
in for a cyclic structure. -/
theorem C8_witness :
    humanizeError .null "F!" = "F!" ∧
    Humanizer.humanize ⟨none, "m", "F?"⟩ (.objVal [("loop", .bigIntVal 0)]) none =
      "F?" := by
  have hnull : extractRawMessage JsValue.null = "Unknown error" := by
    simp [extractRawMessage]
  have hloop : extractRawMessage (.objVal [("loop", .bigIntVal 0)]) =
      "Unknown error" := by
    simp [extractRawMessage, extractFromObject, objCodeCheck, objReasonCheck,
      objDataCheck, objShortMessageCheck, objMessageCheck, objCauseCheck,
      lookupField, stringifyFallback, jsonStringify, jsonStringifyFields]
  constructor
  · exact ((C8_theorem.1 .null "F!" (by rw [hnull]; exact noMatch_unknown_error)).1)
  · exact ((C8_theorem.2 (.objVal [("loop", .bigIntVal 0)]) none "m" "F?"
      (by rw [hloop]; exact noMatch_unknown_error)).2)

/-- C9: with a backend that fails with a rate-limit-class error on the
first two attempts and succeeds with a nonempty body on the third, the
retry loop invokes the backend exactly three times, awaits the doubling
delays `2 ^ 0 * 1000` and `2 ^ 1 * 1000` before the retries, and returns
the trimmed successful response; through the facade the result is the AI
text tagged `source = "ai"`, not the static fallback. -/
theorem C9_theorem (bk : Backend) (mdl fb : String) (e0 e1 : JsValue)
    (c : String)
    (h0 : bk 0 = .failure e0) (hr0 : isRateLimitError e0 = true)
    (h1 : bk 1 = .failure e1) (hr1 : isRateLimitError e1 = true)
    (h2 : bk 2 = .success (some c)) (hc : trimString c ≠ "") :
    askAILoop bk fb 2 0 =
      ⟨trimString c, 3, [2 ^ 0 * 1000, 2 ^ 1 * 1000]⟩ ∧
    (∀ (v : JsValue) (ctx : Option SwapContext),
      matchLocalErrorDetailed (extractRawMessage v) = none →
      Humanizer.humanizeDetailed ⟨some bk, mdl, fb⟩ v ctx =
        ⟨trimString c, .ai, none, extractRawMessage v⟩) := by
  have s2 : askAILoop bk fb 2 2 = ⟨trimString c, 1, []⟩ := by
    unfold askAILoop
    rw [if_neg (by omega), h2]
    simp [hc]
  have s1 : askAILoop bk fb 2 1 = ⟨trimString c, 2, [2 ^ 1 * 1000]⟩ := by
    unfold askAILoop
    rw [if_neg (by omega), h1]
    dsimp only
    rw [if_pos (by simp [hr1])]
    rw [s2]
  have s0 : askAILoop bk fb 2 0 =
      ⟨trimString c, 3, [2 ^ 0 * 1000, 2 ^ 1 * 1000]⟩ := by
    unfold askAILoop
    rw [if_neg (by omega), h0]
    dsimp only
    rw [if_pos (by simp [hr0])]
    rw [s1]
  refine ⟨s0, fun v ctx hm => ?_⟩
  rw [humanizeDetailed_ai_branch bk mdl fb v ctx hm, s0]

/-- C9, witness: the theorem applied to a concrete backend failing twice
with rate-limit errors and then succeeding, on a concrete unmatched
input. -/
theorem C9_witness :
    askAILoop
        (fun n =>
          if n == 0 then .failure (.errorVal "rate limit exceeded" none)
          else if n == 1 then .failure (.errorVal "HTTP 429 Too Many Requests" none)
          else .success (some " All good ")) "FB" 2 0 =
      ⟨trimString " All good ", 3, [2 ^ 0 * 1000, 2 ^ 1 * 1000]⟩ ∧
    Humanizer.humanizeDetailed
        ⟨some (fun n =>
          if n == 0 then .failure (.errorVal "rate limit exceeded" none)
          else if n == 1 then .failure (.errorVal "HTTP 429 Too Many Requests" none)
          else .success (some " All good ")), "m", "FB"⟩
        (.strVal "zzzz qqqq") none =
      ⟨trimString " All good ", .ai, none, extractRawMessage (.strVal "zzzz qqqq")⟩ := by
  have h :=
    C9_theorem
      (fun n =>
        if n == 0 then .failure (.errorVal "rate limit exceeded" none)
        else if n == 1 then .failure (.errorVal "HTTP 429 Too Many Requests" none)
        else .success (some " All good "))
      "m" "FB" (.errorVal "rate limit exceeded" none)
      (.errorVal "HTTP 429 Too Many Requests" none) " All good "
      rfl (by decide) rfl (by decide) rfl (by decide)
  exact ⟨h.1, h.2 (.strVal "zzzz qqqq") none
    (by rw [show extractRawMessage (.strVal "zzzz qqqq") = "zzzz qqqq" by
        simp [extractRawMessage]]
        exact noMatch_probe)⟩

/-- C10: the class constructor treats empty-string configuration as
absent — an empty `fallbackMessage` yields the default
`"Transaction failed. Please try again."` and an empty `aiModel` yields
`"gpt-4o-mini"` — while the standalone `humanizeError` honors an
explicitly passed empty-string fallback. -/
theorem C10_theorem :
    (∀ (bk : Backend) (k m : Option String),
      (mkWeb3ErrorHumanizer ⟨k, m, some ""⟩ bk).fallbackMessage =
        "Transaction failed. Please try again.") ∧
    (∀ (bk : Backend) (k f : Option String),
      (mkWeb3ErrorHumanizer ⟨k, some "", f⟩ bk).model = "gpt-4o-mini") ∧
    humanizeError (.strVal "zzzz qqqq") "" = "" := by
  refine ⟨fun bk k m => rfl, fun bk k f => rfl, ?_⟩
  have hraw : extractRawMessage (.strVal "zzzz qqqq") = "zzzz qqqq" := by
    simp [extractRawMessage]
  simp [humanizeError, humanizeErrorLocal, hraw, noMatch_probe]

end Web3
